import Mathlib

/-
  Verification development for the adaptive-card rendering and dynamic-form
  validation engine of this repository (src/src/mcp_server/adaptive_card_server.py
  and src/src/agents/adaptive_card_agent/agent.py).

  The Python code is shallowly embedded: JSON-compatible Python values become
  the inductive type J below, fallible Python operations (attribute errors,
  value errors, type errors) become Except String results, and the in-memory
  FORM_STORE dictionary becomes an explicit association-list parameter.
-/

/-- A JSON-compatible Python value. Numbers carry a decimal mantissa and a
decimal-exponent: num m e denotes m / 10 ^ e; e = 0 marks a Python int and
e > 0 marks a Python float (kept with at least one fractional digit, trailing
zero fractional digits stripped), mirroring the int/float distinction that
json.loads makes. -/
inductive J where
  | null
  | bool (b : Bool)
  | num (m : Int) (e : Nat)
  | str (s : String)
  | arr (xs : List J)
  | obj (kvs : List (String × J))

/-- First-match lookup in an association list; parser keeps keys unique
(last duplicate wins at parse time), matching Python dict semantics. -/
def jLookup : List (String × J) → String → Option J
  | [], _ => none
  | (k, v) :: kvs, key => if k == key then some v else jLookup kvs key

/-- Python truthiness of a JSON-compatible value: None, False, zero, the empty
string, the empty list and the empty dict are falsy. -/
def jTruthy : J → Bool
  | .null => false
  | .bool b => b
  | .num m _ => m != 0
  | .str s => s != ""
  | .arr xs => !xs.isEmpty
  | .obj kvs => !kvs.isEmpty

/-- ASCII lowercasing, modelling Python str.lower on the ASCII template and
severity strings used by the source (full Unicode case mapping is out of
scope of this model). -/
def asciiLower (s : String) : String :=
  String.mk (s.data.map Char.toLower)

/-- ASCII uppercasing, modelling Python str.upper on ASCII strings. -/
def asciiUpper (s : String) : String :=
  String.mk (s.data.map Char.toUpper)

def asciiTitleAux : Bool → List Char → List Char
  | _, [] => []
  | prevAlpha, c :: cs =>
    let c2 := if c.isAlpha then (if prevAlpha then c.toLower else c.toUpper) else c
    c2 :: asciiTitleAux c.isAlpha cs

/-- ASCII titlecasing, modelling Python str.title: the first letter of every
alphabetic run is uppercased, the rest lowercased. -/
def asciiTitle (s : String) : String :=
  String.mk (asciiTitleAux false s.data)

/-- Concatenation with separator, modelling Python str.join. -/
def joinSep (sep : String) : List String → String
  | [] => ""
  | [x] => x
  | x :: xs => x ++ sep ++ joinSep sep xs

/-- Strip trailing zero fractional digits of a decimal float m / 10 ^ e down
to at least one fractional digit, mirroring the shortest-decimal printing of
Python floats on the decimal values reachable from JSON input. -/
def normFloat : Int → Nat → Int × Nat
  | m, 0 => (m, 0)
  | m, 1 => (m, 1)
  | m, e + 2 => if m % 10 == 0 then normFloat (m / 10) (e + 1) else (m, e + 2)

/-- Build the float-valued J (exponent at least 1) denoting m / 10 ^ e. -/
def J.mkFloat (m : Int) (e : Nat) : J :=
  let p := normFloat m e
  if p.2 = 0 then J.num (p.1 * 10) 1 else J.num p.1 p.2

/-- Decimal digits of n left-padded with zeros to the given width. -/
def digitsPad (n : Nat) (width : Nat) : String :=
  let s := toString n
  String.mk (List.replicate (width - s.length) '0') ++ s

/-- Python str() of the number m / 10 ^ e: int style when e = 0, otherwise
decimal-point style with e fractional digits. -/
def strNum (m : Int) (e : Nat) : String :=
  if e = 0 then toString m
  else
    let a : Nat := m.natAbs
    (if m < 0 then "-" else "") ++ toString (a / 10 ^ e) ++ "." ++ digitsPad (a % 10 ^ e) e

/-- Python repr of a JSON-compatible value, with recursion fuel for the
nesting depth (string escaping inside repr is out of scope of this model). -/
def pyReprFuel : Nat → J → String
  | 0, _ => "..."
  | _ + 1, .null => "None"
  | _ + 1, .bool b => if b then "True" else "False"
  | _ + 1, .num m e => strNum m e
  | _ + 1, .str s => "\x27" ++ s ++ "\x27"
  | n + 1, .arr xs => "[" ++ joinSep ", " (xs.map (pyReprFuel n)) ++ "]"
  | n + 1, .obj kvs =>
    "\x7b" ++ joinSep ", " (kvs.map (fun kv => "\x27" ++ kv.1 ++ "\x27: " ++ pyReprFuel n kv.2)) ++ "\x7d"

/-- Python str() of a JSON-compatible value, as interpolated by the f-strings
of the source. -/
def pyStr : J → String
  | .str s => s
  | v => pyReprFuel 1000 v

/-- Python dict.get(k): the stored value, or None when the key is absent.
JSON null and Python None coincide. Raises AttributeError on non-dicts. -/
def J.pyGet (d : J) (k : String) : Except String J :=
  match d with
  | .obj kvs => .ok ((jLookup kvs k).getD J.null)
  | _ => .error "AttributeError: get"

/-- Python dict.get(k, default): the stored value (even when it is None), or
the default when the key is absent. Raises AttributeError on non-dicts. -/
def J.pyGetD (d : J) (k : String) (dflt : J) : Except String J :=
  match d with
  | .obj kvs => .ok ((jLookup kvs k).getD dflt)
  | _ => .error "AttributeError: get"

/-- Python x or y on JSON-compatible values. -/
def pyOr (a b : J) : J := if jTruthy a then a else b

/-- Python value.lower(): only strings have the method. -/
def J.pyLower : J → Except String String
  | .str s => .ok (asciiLower s)
  | _ => .error "AttributeError: lower"

/-- Python iteration over a JSON-compatible value: lists yield elements,
strings yield one-character strings, dicts yield their keys. -/
def pyIter : J → Except String (List J)
  | .arr xs => .ok xs
  | .str s => .ok (s.data.map (fun c => J.str (String.mk [c])))
  | .obj kvs => .ok (kvs.map (fun kv => J.str kv.1))
  | _ => .error "TypeError: not iterable"

/-- Python value[:3]: defined for lists and strings only. -/
def pySlice3 : J → Except String (List J)
  | .arr xs => .ok (xs.take 3)
  | .str s => .ok ((s.data.take 3).map (fun c => J.str (String.mk [c])))
  | _ => .error "TypeError: unsliceable"

/-- Membership test k in d for a dict d (the source only reaches it with
dict arguments). -/
def jHasKey (d : J) (k : String) : Bool :=
  match d with
  | .obj kvs => (jLookup kvs k).isSome
  | _ => false

def digitsValAux : Nat → List Char → Nat
  | acc, [] => acc
  | acc, c :: cs => digitsValAux (acc * 10 + (c.toNat - 48)) cs

/-- Numeric value of a list of decimal digit characters. -/
def digitsVal (cs : List Char) : Nat := digitsValAux 0 cs

/-- Normalize a decimal m / 10 ^ e to Python-float shape: at least one
fractional digit, trailing zero fractional digits stripped. -/
def normToFloat (m : Int) (e : Nat) : Int × Nat :=
  let p := normFloat m e
  if p.2 = 0 then (p.1 * 10, 1) else p

/-- Parse the body of a Python float literal string: optional sign, digits,
optional fractional part, optional exponent (only the decimal forms are in
scope; inf and nan are out of scope of this model). -/
def parseFloatChars (cs0 : List Char) : Option (Int × Nat) :=
  let cs := (cs0.dropWhile (fun c => c == ' ' || c == '\t' || c == '\n' || c == '\r')).reverse
  let cs := (cs.dropWhile (fun c => c == ' ' || c == '\t' || c == '\n' || c == '\r')).reverse
  let p0 : Bool × List Char :=
    match cs with
    | '-' :: t => (true, t)
    | '+' :: t => (false, t)
    | _ => (false, cs)
  let neg := p0.1
  let p1 := p0.2.span Char.isDigit
  let ids := p1.1
  let p2 : Option (List Char × List Char) :=
    match p1.2 with
    | '.' :: t => some (t.span Char.isDigit)
    | rest => some ([], rest)
  match p2 with
  | none => none
  | some (fds, rest2) =>
    if ids.isEmpty && fds.isEmpty then none
    else
      let pe : Option (Int × List Char) :=
        match rest2 with
        | c :: t =>
          if c == 'e' || c == 'E' then
            let ps : Int × List Char :=
              match t with
              | '+' :: u => (1, u)
              | '-' :: u => (-1, u)
              | _ => (1, t)
            let pd := ps.2.span Char.isDigit
            if pd.1.isEmpty then none else some (ps.1 * (digitsVal pd.1 : Int), pd.2)
          else some (0, c :: t)
        | [] => some (0, [])
      match pe with
      | none => none
      | some (k, rest3) =>
        if rest3.isEmpty then
          let m0 : Int := (if neg then -1 else 1) * (digitsVal (ids ++ fds) : Int)
          if k ≥ 0 then some (normToFloat (m0 * 10 ^ k.toNat) fds.length)
          else some (normToFloat m0 (fds.length + (-k).toNat))
        else none

/-- Python float(x): ints and floats pass through, booleans become 0.0/1.0,
strings are parsed, everything else is a TypeError. The result is a
normalized decimal float pair (mantissa, fractional digits). -/
def pyFloat : J → Except String (Int × Nat)
  | .num m e => .ok (normToFloat m e)
  | .bool b => .ok (if b then (10, 1) else (0, 1))
  | .str s =>
    match parseFloatChars s.data with
    | some p => .ok p
    | none => .error "ValueError: could not convert string to float"
  | _ => .error "TypeError: float argument"

/-- Leading JSON whitespace removal. -/
def skipWs : List Char → List Char
  | c :: cs => if c == ' ' || c == '\t' || c == '\n' || c == '\r' then skipWs cs else c :: cs
  | [] => []

/-- Match a literal character sequence, returning the remainder. -/
def stripLit : List Char → List Char → Option (List Char)
  | [], cs => some cs
  | p :: ps, c :: cs => if c == p then stripLit ps cs else none
  | _ :: _, [] => none

def hexVal (c : Char) : Option Nat :=
  if c.isDigit then some (c.toNat - 48)
  else if 'a' ≤ c && c ≤ 'f' then some (c.toNat - 87)
  else if 'A' ≤ c && c ≤ 'F' then some (c.toNat - 55)
  else none

/-- Parse the remainder of a JSON string literal (after the opening quote),
fuelled by the input length; surrogate pairs are out of scope of this model. -/
def parseStrAux : Nat → List Char → List Char → Option (String × List Char)
  | 0, _, _ => none
  | _ + 1, _, [] => none
  | f + 1, acc, c :: cs =>
    if c == '"' then some (String.mk acc.reverse, cs)
    else if c == '\\' then
      match cs with
      | [] => none
      | e :: cs2 =>
        if e == '"' then parseStrAux f ('"' :: acc) cs2
        else if e == '\\' then parseStrAux f ('\\' :: acc) cs2
        else if e == '/' then parseStrAux f ('/' :: acc) cs2
        else if e == 'b' then parseStrAux f ('\x08' :: acc) cs2
        else if e == 'f' then parseStrAux f ('\x0C' :: acc) cs2
        else if e == 'n' then parseStrAux f ('\n' :: acc) cs2
        else if e == 'r' then parseStrAux f ('\r' :: acc) cs2
        else if e == 't' then parseStrAux f ('\t' :: acc) cs2
        else if e == 'u' then
          match cs2 with
          | h1 :: h2 :: h3 :: h4 :: cs3 =>
            match hexVal h1, hexVal h2, hexVal h3, hexVal h4 with
            | some a, some b, some c3, some d =>
              parseStrAux f (Char.ofNat (((a * 16 + b) * 16 + c3) * 16 + d) :: acc) cs3
            | _, _, _, _ => none
          | _ => none
        else none
    else parseStrAux f (c :: acc) cs

/-- Parse a JSON number per the strict JSON grammar; a fractional part or an
exponent makes the result a Python float, otherwise an int. -/
def parseNum (cs : List Char) : Option (J × List Char) :=
  let p0 : Bool × List Char :=
    match cs with
    | '-' :: t => (true, t)
    | _ => (false, cs)
  let p1 := p0.2.span Char.isDigit
  let ids := p1.1
  if ids.isEmpty then none
  else if ids.length > 1 && ids.head? == some '0' then none
  else
    let pf : Option (List Char × List Char) :=
      match p1.2 with
      | '.' :: t =>
        let q := t.span Char.isDigit
        if q.1.isEmpty then none else some q
      | rest => some ([], rest)
    match pf with
    | none => none
    | some (fds, rest2) =>
      let pe : Option (Option Int × List Char) :=
        match rest2 with
        | c :: t =>
          if c == 'e' || c == 'E' then
            let ps : Int × List Char :=
              match t with
              | '+' :: u => (1, u)
              | '-' :: u => (-1, u)
              | _ => (1, t)
            let pd := ps.2.span Char.isDigit
            if pd.1.isEmpty then none else some (some (ps.1 * (digitsVal pd.1 : Int)), pd.2)
          else some (none, c :: t)
        | [] => some (none, [])
      match pe with
      | none => none
      | some (expPart, rest3) =>
        let m0 : Int := (if p0.1 then -1 else 1) * (digitsVal (ids ++ fds) : Int)
        if fds.isEmpty && expPart.isNone then some (J.num m0 0, rest3)
        else
          let k := expPart.getD 0
          if k ≥ 0 then some (J.mkFloat (m0 * 10 ^ k.toNat) fds.length, rest3)
          else some (J.mkFloat m0 (fds.length + (-k).toNat), rest3)

/-- Insert a key into an object, replacing in place when the key is already
present (Python dict semantics for duplicate JSON keys: last value wins). -/
def objInsert : List (String × J) → String → J → List (String × J)
  | [], k, v => [(k, v)]
  | (k0, v0) :: kvs, k, v =>
    if k0 == k then (k0, v) :: kvs else (k0, v0) :: objInsert kvs k v

mutual

/-- Parse one JSON value, fuelled; models json.loads (the non-standard NaN
and Infinity extensions are out of scope of this model). -/
def parseVal : Nat → List Char → Option (J × List Char)
  | 0, _ => none
  | f + 1, cs =>
    match skipWs cs with
    | [] => none
    | c :: rest =>
      if c == '\x7b' then
        match skipWs rest with
        | '\x7d' :: rest2 => some (J.obj [], rest2)
        | rest2 => parseObjItems f [] rest2
      else if c == '[' then
        match skipWs rest with
        | ']' :: rest2 => some (J.arr [], rest2)
        | rest2 => parseArrItems f [] rest2
      else if c == '"' then
        match parseStrAux (rest.length + 1) [] rest with
        | some (s, rest2) => some (J.str s, rest2)
        | none => none
      else if c == 't' then
        match stripLit ['r', 'u', 'e'] rest with
        | some rest2 => some (J.bool true, rest2)
        | none => none
      else if c == 'f' then
        match stripLit ['a', 'l', 's', 'e'] rest with
        | some rest2 => some (J.bool false, rest2)
        | none => none
      else if c == 'n' then
        match stripLit ['u', 'l', 'l'] rest with
        | some rest2 => some (J.null, rest2)
        | none => none
      else parseNum (c :: rest)

/-- Parse the elements of a non-empty JSON array, fuelled. -/
def parseArrItems : Nat → List J → List Char → Option (J × List Char)
  | 0, _, _ => none
  | f + 1, acc, cs =>
    match parseVal f cs with
    | none => none
    | some (v, rest) =>
      match skipWs rest with
      | ',' :: rest2 => parseArrItems f (v :: acc) rest2
      | ']' :: rest2 => some (J.arr (v :: acc).reverse, rest2)
      | _ => none

/-- Parse the members of a non-empty JSON object, fuelled. -/
def parseObjItems : Nat → List (String × J) → List Char → Option (J × List Char)
  | 0, _, _ => none
  | f + 1, acc, cs =>
    match skipWs cs with
    | '"' :: rest =>
      match parseStrAux (rest.length + 1) [] rest with
      | none => none
      | some (k, rest2) =>
        match skipWs rest2 with
        | ':' :: rest3 =>
          match parseVal f rest3 with
          | none => none
          | some (v, rest4) =>
            match skipWs rest4 with
            | ',' :: rest5 => parseObjItems f (objInsert acc k v) rest5
            | '\x7d' :: rest5 => some (J.obj (objInsert acc k v), rest5)
            | _ => none
        | _ => none
    | _ => none

end

/-- Models json.loads: parse a complete JSON document, requiring the whole
input to be consumed; none models json.JSONDecodeError. -/
def json_loads (s : String) : Option J :=
  match parseVal (2 * s.length + 2) s.data with
  | some (v, rest) => if (skipWs rest).isEmpty then some v else none
  | none => none

/-- Embeds create_hero_card (adaptive_card_server.py lines 8-45). -/
def create_hero_card (data : J) : Except String J := do
  let title ← data.pyGetD "title" (J.str "Hero Card")
  let desc ← data.pyGetD "description" (J.str "Description goes here...")
  let imageUrl ← data.pyGetD "imageUrl" (J.str "https://picsum.photos/400/200")
  let url ← data.pyGetD "url" (J.str "https://adaptivecards.io")
  pure (J.obj [
    ("type", J.str "AdaptiveCard"),
    ("$schema", J.str "https://adaptivecards.io/schemas/adaptive-card.json"),
    ("version", J.str "1.4"),
    ("speak", J.str (pyStr title ++ ". " ++ pyStr desc)),
    ("body", J.arr [
      J.obj [
        ("type", J.str "Container"),
        ("items", J.arr [
          J.obj [("type", J.str "Image"), ("url", imageUrl), ("size", J.str "Stretch"),
                 ("altText", J.str "Hero Image")],
          J.obj [("type", J.str "TextBlock"), ("text", title), ("weight", J.str "Bolder"),
                 ("size", J.str "Large")],
          J.obj [("type", J.str "TextBlock"), ("text", desc), ("wrap", J.bool true)]])]]),
    ("actions", J.arr [
      J.obj [("type", J.str "Action.OpenUrl"), ("title", J.str "Learn More"), ("url", url)]])])

/-- Embeds create_alert_card (adaptive_card_server.py lines 47-90): severity
is lowercased with default low, selects the color tier and, when not low, a
single Acknowledge action; an empty action list is emitted as null. -/
def create_alert_card (data : J) : Except String J := do
  let sevRaw ← data.pyGetD "severity" (J.str "low")
  let severity ← sevRaw.pyLower
  let color := if severity == "low" then "Good"
    else if severity == "medium" then "Warning" else "Attention"
  let value ← data.pyGetD "value" (J.num 0 0)
  let detail ← data.pyGetD "detail" (J.str "No details provided.")
  let body := [
    J.obj [("type", J.str "TextBlock"), ("text", J.str ("Status Alert: " ++ asciiUpper severity)),
           ("weight", J.str "Bolder"), ("size", J.str "Medium"), ("color", J.str color)],
    J.obj [("type", J.str "FactSet"), ("facts", J.arr [
      J.obj [("title", J.str "Value:"), ("value", J.str (pyStr value))],
      J.obj [("title", J.str "Severity:"), ("value", J.str (asciiTitle severity))]])],
    J.obj [("type", J.str "TextBlock"), ("text", detail), ("wrap", J.bool true)]]
  let actions : List J :=
    if severity != "low" then
      [J.obj [("type", J.str "Action.Submit"), ("title", J.str "Acknowledge"),
              ("data", J.obj [("action", J.str "acknowledge")]), ("text", J.str "acknowledge"),
              ("msteams", J.obj [("type", J.str "imBack"), ("value", J.str "acknowledge")])]]
    else []
  pure (J.obj [
    ("type", J.str "AdaptiveCard"),
    ("$schema", J.str "https://adaptivecards.io/schemas/adaptive-card.json"),
    ("version", J.str "1.4"),
    ("speak", J.str ("Status Alert: " ++ asciiUpper severity ++ ". " ++ pyStr detail)),
    ("body", J.arr body),
    ("actions", if actions.isEmpty then J.null else J.arr actions)])

/-- Embeds create_data_summary_card (adaptive_card_server.py lines 92-120). -/
def create_data_summary_card (data : J) : Except String J := do
  let title ← data.pyGetD "title" (J.str "Data Summary")
  let total ← data.pyGetD "total" (J.num 0 0)
  let trend ← data.pyGetD "trend" (J.str "Stable")
  pure (J.obj [
    ("type", J.str "AdaptiveCard"),
    ("$schema", J.str "https://adaptivecards.io/schemas/adaptive-card.json"),
    ("version", J.str "1.4"),
    ("speak", J.str ("Data Summary for " ++ pyStr title)),
    ("body", J.arr [
      J.obj [("type", J.str "TextBlock"), ("text", title), ("weight", J.str "Bolder"),
             ("size", J.str "Medium")],
      J.obj [("type", J.str "Image"),
             ("url", J.str ("https://quickchart.io/chart?c=\x7btype:\x27bar\x27,data:\x7blabels:[\x27Q1\x27,\x27Q2\x27,\x27Q3\x27,\x27Q4\x27],datasets:[\x7blabel:\x27Users\x27,data:[50,60,70,180]\x7d]\x7d\x7d")),
             ("size", J.str "Stretch"), ("altText", J.str "Data Chart")],
      J.obj [("type", J.str "FactSet"), ("facts", J.arr [
        J.obj [("title", J.str "Total:"), ("value", J.str (pyStr total))],
        J.obj [("title", J.str "Trend:"), ("value", trend)]])]])])

/-- Embeds create_form_card (adaptive_card_server.py lines 122-160). -/
def create_form_card (data : J) : Except String J := do
  let title ← data.pyGetD "title" (J.str "Feedback Form")
  pure (J.obj [
    ("type", J.str "AdaptiveCard"),
    ("$schema", J.str "https://adaptivecards.io/schemas/adaptive-card.json"),
    ("version", J.str "1.4"),
    ("speak", J.str ("Form: " ++ pyStr title)),
    ("body", J.arr [
      J.obj [("type", J.str "TextBlock"), ("text", title), ("weight", J.str "Bolder"),
             ("size", J.str "Medium")],
      J.obj [("type", J.str "Input.Text"), ("id", J.str "name"),
             ("placeholder", J.str "Enter your name")],
      J.obj [("type", J.str "Input.Date"), ("id", J.str "date")],
      J.obj [("type", J.str "Input.Text"), ("id", J.str "comment"),
             ("placeholder", J.str "Comments..."), ("isMultiline", J.bool true)]]),
    ("actions", J.arr [
      J.obj [("type", J.str "Action.Submit"), ("title", J.str "Submit"),
             ("data", J.obj [("action", J.str "submit_form")]), ("text", J.str "submit_form"),
             ("msteams", J.obj [("type", J.str "imBack"), ("value", J.str "submit_form")])]])])

/-- One item of the list-card body loop (adaptive_card_server.py lines
184-214): a bare string is a title-only entry, anything else must be a dict
with optional title and subtitle. -/
def listItemContainer (item : J) : Except String J := do
  let p : J × J ←
    match item with
    | .str s => pure (J.str s, J.str "")
    | _ => do
      let t ← item.pyGetD "title" (J.str "Item")
      let sub ← item.pyGetD "subtitle" (J.str "")
      pure (t, sub)
  let itemContent :=
    J.obj [("type", J.str "TextBlock"), ("text", p.1), ("weight", J.str "Bolder"),
           ("wrap", J.bool true)] ::
    (if jTruthy p.2 then
      [J.obj [("type", J.str "TextBlock"), ("text", p.2), ("isSubtle", J.bool true),
              ("spacing", J.str "None"), ("wrap", J.bool true)]]
     else [])
  pure (J.obj [("type", J.str "Container"), ("items", J.arr itemContent),
               ("separator", J.bool true)])

/-- One element of the list-card speak join (adaptive_card_server.py line
220): dict items contribute their title (which must be a string), string
items contribute themselves, anything else is a TypeError in str.join. -/
def listSpeakElem : J → Except String String
  | .obj kvs =>
    match (jLookup kvs "title").getD (J.str "") with
    | .str s => .ok s
    | _ => .error "TypeError: join expects str"
  | .str s => .ok s
  | _ => .error "TypeError: join expects str"

/-- Embeds create_list_card (adaptive_card_server.py lines 162-222): items
come from the first truthy of the keys items, tasks, checklist, defaulting
to the empty list, whose emptiness produces the no-items placeholder. -/
def create_list_card (data : J) : Except String J := do
  let itemsRaw ← data.pyGet "items"
  let tasksRaw ← data.pyGet "tasks"
  let checklistRaw ← data.pyGet "checklist"
  let items := pyOr itemsRaw (pyOr tasksRaw (pyOr checklistRaw (J.arr [])))
  let titleRaw ← data.pyGet "title"
  let title := pyOr titleRaw (J.str "Item List")
  let titleBlock :=
    J.obj [("type", J.str "TextBlock"), ("text", title), ("size", J.str "Medium"),
           ("weight", J.str "Bolder")]
  let rest : List J ←
    if jTruthy items then do
      let elems ← pyIter items
      elems.mapM listItemContainer
    else
      pure [J.obj [("type", J.str "TextBlock"), ("text", J.str "(No items found)"),
                   ("isSubtle", J.bool true), ("italic", J.bool true)]]
  let sliced ← pySlice3 items
  let parts ← sliced.mapM listSpeakElem
  pure (J.obj [
    ("type", J.str "AdaptiveCard"),
    ("$schema", J.str "https://adaptivecards.io/schemas/adaptive-card.json"),
    ("version", J.str "1.4"),
    ("speak", J.str ("List: " ++ pyStr title ++ ". " ++ joinSep " " parts)),
    ("body", J.arr (titleBlock :: rest))])

/-- Embeds create_flight_update_card (adaptive_card_server.py lines 224-289);
the status color compares the raw status value (no default) with On Time. -/
def create_flight_update_card (data : J) : Except String J := do
  let flightNumber ← data.pyGetD "flightNumber" (J.str "UA123")
  let route ← data.pyGetD "route" (J.str "SFO > JFK")
  let status ← data.pyGetD "status" (J.str "On Time")
  let statusRaw ← data.pyGet "status"
  let statusColor := match statusRaw with
    | .str s => if s == "On Time" then "Good" else "Attention"
    | _ => "Attention"
  let passenger ← data.pyGetD "passenger" (J.str "John Doe")
  let gate ← data.pyGetD "gate" (J.str "TBD")
  let boardingTime ← data.pyGetD "boardingTime" (J.str "12:00 PM")
  pure (J.obj [
    ("type", J.str "AdaptiveCard"),
    ("$schema", J.str "https://adaptivecards.io/schemas/adaptive-card.json"),
    ("version", J.str "1.4"),
    ("speak", J.str ("Flight Update for " ++ pyStr flightNumber ++ ", " ++ pyStr route ++
                     ". Status: " ++ pyStr status)),
    ("body", J.arr [
      J.obj [("type", J.str "TextBlock"), ("text", J.str "Flight Update"),
             ("size", J.str "Medium"), ("weight", J.str "Bolder"), ("color", J.str "Accent")],
      J.obj [("type", J.str "ColumnSet"), ("columns", J.arr [
        J.obj [("type", J.str "Column"), ("width", J.str "stretch"), ("items", J.arr [
          J.obj [("type", J.str "TextBlock"), ("text", flightNumber),
                 ("size", J.str "ExtraLarge"), ("weight", J.str "Bolder")],
          J.obj [("type", J.str "TextBlock"), ("text", route), ("isSubtle", J.bool true),
                 ("spacing", J.str "None")]])],
        J.obj [("type", J.str "Column"), ("width", J.str "auto"), ("items", J.arr [
          J.obj [("type", J.str "TextBlock"), ("text", status), ("color", J.str statusColor),
                 ("weight", J.str "Bolder")]])]])],
      J.obj [("type", J.str "FactSet"), ("facts", J.arr [
        J.obj [("title", J.str "Passenger:"), ("value", passenger)],
        J.obj [("title", J.str "Gate:"), ("value", gate)],
        J.obj [("title", J.str "Boarding:"), ("value", boardingTime)]])]]),
    ("actions", J.arr [
      J.obj [("type", J.str "Action.OpenUrl"), ("title", J.str "Check In"),
             ("url", J.str "https://www.united.com")]])])

/-- Embeds create_weather_card (adaptive_card_server.py lines 291-347). -/
def create_weather_card (data : J) : Except String J := do
  let city ← data.pyGetD "city" (J.str "Unknown")
  let temperature ← data.pyGetD "temperature" (J.str "72")
  let condition ← data.pyGetD "condition" (J.str "Sunny")
  let iconUrl ← data.pyGetD "iconUrl" (J.str "https://openweathermap.org/img/wn/10d@2x.png")
  let high ← data.pyGetD "high" (J.str "75")
  let low ← data.pyGetD "low" (J.str "60")
  let wind ← data.pyGetD "wind" (J.str "10 mph")
  pure (J.obj [
    ("type", J.str "AdaptiveCard"),
    ("$schema", J.str "https://adaptivecards.io/schemas/adaptive-card.json"),
    ("version", J.str "1.4"),
    ("speak", J.str ("Weather in " ++ pyStr city ++ ": " ++ pyStr temperature ++
                     " degrees fahrenheit, " ++ pyStr condition)),
    ("body", J.arr [
      J.obj [("type", J.str "TextBlock"), ("text", J.str ("Weather in " ++ pyStr city)),
             ("size", J.str "Medium"), ("weight", J.str "Bolder")],
      J.obj [("type", J.str "ColumnSet"), ("columns", J.arr [
        J.obj [("type", J.str "Column"), ("width", J.str "auto"), ("items", J.arr [
          J.obj [("type", J.str "Image"), ("url", iconUrl), ("size", J.str "Small")]])],
        J.obj [("type", J.str "Column"), ("width", J.str "stretch"), ("items", J.arr [
          J.obj [("type", J.str "TextBlock"), ("text", J.str (pyStr temperature ++ "°F")),
                 ("size", J.str "ExtraLarge"), ("weight", J.str "Lighter")],
          J.obj [("type", J.str "TextBlock"), ("text", condition), ("isSubtle", J.bool true),
                 ("spacing", J.str "None")]])]])],
      J.obj [("type", J.str "FactSet"), ("facts", J.arr [
        J.obj [("title", J.str "High:"), ("value", J.str (pyStr high ++ "°F"))],
        J.obj [("title", J.str "Low:"), ("value", J.str (pyStr low ++ "°F"))],
        J.obj [("title", J.str "Wind:"), ("value", wind)]])]])])

/-- Embeds create_stock_update_card (adaptive_card_server.py lines 349-408):
the change field is coerced with float(), whose sign picks color and arrow. -/
def create_stock_update_card (data : J) : Except String J := do
  let changeRaw ← data.pyGetD "change" (J.num 0 0)
  let change ← pyFloat changeRaw
  let color := if change.1 ≥ 0 then "Good" else "Attention"
  let arrow := if change.1 ≥ 0 then "▲" else "▼"
  let symbol ← data.pyGetD "symbol" (J.str "MSFT")
  let price ← data.pyGetD "price" (J.str "0.00")
  let changePoints ← data.pyGetD "changePoints" (J.str "0.00")
  pure (J.obj [
    ("type", J.str "AdaptiveCard"),
    ("$schema", J.str "https://adaptivecards.io/schemas/adaptive-card.json"),
    ("version", J.str "1.4"),
    ("speak", J.str ("Market Update for " ++ pyStr symbol ++ ": Current price is " ++
                     pyStr price ++ " dollars, change is " ++ pyStr changePoints ++ " points.")),
    ("body", J.arr [
      J.obj [("type", J.str "TextBlock"), ("text", J.str "Market Update"),
             ("size", J.str "Medium"), ("weight", J.str "Bolder"), ("color", J.str "Accent")],
      J.obj [("type", J.str "Container"), ("items", J.arr [
        J.obj [("type", J.str "TextBlock"), ("text", symbol), ("size", J.str "Large"),
               ("weight", J.str "Bolder")],
        J.obj [("type", J.str "ColumnSet"), ("columns", J.arr [
          J.obj [("type", J.str "Column"), ("width", J.str "auto"), ("items", J.arr [
            J.obj [("type", J.str "TextBlock"), ("text", J.str ("$" ++ pyStr price)),
                   ("size", J.str "ExtraLarge")]])],
          J.obj [("type", J.str "Column"), ("width", J.str "stretch"), ("items", J.arr [
            J.obj [("type", J.str "TextBlock"),
                   ("text", J.str (arrow ++ " " ++ strNum (change.1.natAbs : Int) change.2 ++
                                   "% (" ++ pyStr changePoints ++ ")")),
                   ("color", J.str color), ("weight", J.str "Bolder"),
                   ("spacing", J.str "Medium")]])]])]])]])])

/-- Embeds create_calendar_invite_card (adaptive_card_server.py lines
410-461). -/
def create_calendar_invite_card (data : J) : Except String J := do
  let title ← data.pyGetD "title" (J.str "Team Meeting")
  let time ← data.pyGetD "time" (J.str "10:00 AM - 11:00 AM")
  let location ← data.pyGetD "location" (J.str "Room 404")
  let organizer ← data.pyGetD "organizer" (J.str "Alok Pandit")
  let description ← data.pyGetD "description" (J.str "Agenda tbd...")
  let eventId ← data.pyGet "id"
  pure (J.obj [
    ("type", J.str "AdaptiveCard"),
    ("$schema", J.str "https://adaptivecards.io/schemas/adaptive-card.json"),
    ("version", J.str "1.4"),
    ("speak", J.str ("Calendar Invite: " ++ pyStr title ++ " at " ++ pyStr time)),
    ("body", J.arr [
      J.obj [("type", J.str "TextBlock"), ("text", J.str "Calendar Invite"),
             ("size", J.str "Medium"), ("weight", J.str "Bolder"), ("color", J.str "Accent")],
      J.obj [("type", J.str "TextBlock"), ("text", title), ("size", J.str "Large"),
             ("weight", J.str "Bolder"), ("wrap", J.bool true)],
      J.obj [("type", J.str "FactSet"), ("facts", J.arr [
        J.obj [("title", J.str "Time:"), ("value", time)],
        J.obj [("title", J.str "Location:"), ("value", location)],
        J.obj [("title", J.str "Organizer:"), ("value", organizer)]])],
      J.obj [("type", J.str "TextBlock"), ("text", description), ("wrap", J.bool true)]]),
    ("actions", J.arr [
      J.obj [("type", J.str "Action.Submit"), ("title", J.str "Accept"),
             ("style", J.str "positive"),
             ("data", J.obj [("action", J.str "accept"), ("eventId", eventId)]),
             ("text", J.str "accept")],
      J.obj [("type", J.str "Action.Submit"), ("title", J.str "Decline"),
             ("style", J.str "destructive"),
             ("data", J.obj [("action", J.str "decline"), ("eventId", eventId)]),
             ("text", J.str "decline")]])])

/-- Embeds create_restaurant_details_card (adaptive_card_server.py lines
463-529). -/
def create_restaurant_details_card (data : J) : Except String J := do
  let name ← data.pyGetD "name" (J.str "Restaurant Name")
  let rating ← data.pyGetD "rating" (J.str "4.5")
  let reviews ← data.pyGetD "reviews" (J.str "100")
  let cuisine ← data.pyGetD "cuisine" (J.str "American")
  let price ← data.pyGetD "price" (J.str "$$$")
  let address ← data.pyGetD "address" (J.str "123 Main St, City")
  let imageUrl ← data.pyGetD "imageUrl" (J.str "https://adaptivecards.io/content/cats/2.png")
  let url ← data.pyGetD "url" (J.str "https://opentable.com")
  let menuUrl ← data.pyGetD "menuUrl" (J.str "https://opentable.com")
  pure (J.obj [
    ("type", J.str "AdaptiveCard"),
    ("$schema", J.str "https://adaptivecards.io/schemas/adaptive-card.json"),
    ("version", J.str "1.4"),
    ("speak", J.str ("Restaurant Details for " ++ pyStr name ++ ". Rating: " ++ pyStr rating)),
    ("body", J.arr [
      J.obj [("type", J.str "Image"), ("url", imageUrl), ("size", J.str "Stretch"),
             ("altText", J.str "Restaurant Image")],
      J.obj [("type", J.str "TextBlock"), ("text", name), ("size", J.str "Medium"),
             ("weight", J.str "Bolder")],
      J.obj [("type", J.str "ColumnSet"), ("columns", J.arr [
        J.obj [("type", J.str "Column"), ("width", J.str "auto"), ("items", J.arr [
          J.obj [("type", J.str "TextBlock"),
                 ("text", J.str ("⭐ " ++ pyStr rating ++ " (" ++ pyStr reviews ++ ")")),
                 ("isSubtle", J.bool true)]])],
        J.obj [("type", J.str "Column"), ("width", J.str "stretch"), ("items", J.arr [
          J.obj [("type", J.str "TextBlock"),
                 ("text", J.str (pyStr cuisine ++ " • " ++ pyStr price)),
                 ("isSubtle", J.bool true), ("horizontalAlignment", J.str "Right")]])]])],
      J.obj [("type", J.str "TextBlock"), ("text", address), ("wrap", J.bool true),
             ("isSubtle", J.bool true)]]),
    ("actions", J.arr [
      J.obj [("type", J.str "Action.OpenUrl"), ("title", J.str "Book Table"), ("url", url)],
      J.obj [("type", J.str "Action.OpenUrl"), ("title", J.str "View Menu"), ("url", menuUrl)]])])

/-- Embeds create_popup_card (adaptive_card_server.py lines 531-576). -/
def create_popup_card (data : J) : Except String J := do
  let title ← data.pyGetD "title" (J.str "Tool")
  let text ← data.pyGetD "text" (J.str "Click button to open.")
  let buttonTitle ← data.pyGetD "buttonTitle" (J.str "Open")
  let url ← data.pyGetD "url" (J.str "about:blank")
  pure (J.obj [
    ("type", J.str "AdaptiveCard"),
    ("$schema", J.str "https://adaptivecards.io/schemas/adaptive-card.json"),
    ("version", J.str "1.4"),
    ("speak", J.str (pyStr title ++ ". " ++ pyStr text)),
    ("body", J.arr [
      J.obj [("type", J.str "Image"),
             ("url", J.str "https://media.giphy.com/media/l41lI4bYmcsPJX9Go/giphy.gif"),
             ("size", J.str "Medium"), ("horizontalAlignment", J.str "Center")],
      J.obj [("type", J.str "TextBlock"), ("text", title), ("size", J.str "Medium"),
             ("weight", J.str "Bolder"), ("horizontalAlignment", J.str "Center")],
      J.obj [("type", J.str "TextBlock"), ("text", text), ("wrap", J.bool true)]]),
    ("actions", J.arr [
      J.obj [("type", J.str "Action.Submit"),
             ("title", J.str (pyStr buttonTitle ++ " (Teams)")),
             ("data", J.obj [("msteams", J.obj [("type", J.str "task/fetch")]), ("url", url),
                             ("title", title)]),
             ("text", J.str "open_tool")],
      J.obj [("type", J.str "Action.OpenUrl"),
             ("title", J.str (pyStr buttonTitle ++ " (Web)")), ("url", url)]])])

/-- Embeds create_simple_card (adaptive_card_server.py lines 578-592): the
displayed text is the first truthy of message, text, content, defaulting to
the placeholder; it is used unchanged for both speak and the single block. -/
def create_simple_card (data : J) : Except String J := do
  let m ← data.pyGet "message"
  let t ← data.pyGet "text"
  let c ← data.pyGet "content"
  let text := pyOr m (pyOr t (pyOr c (J.str "No content provided.")))
  pure (J.obj [
    ("type", J.str "AdaptiveCard"),
    ("$schema", J.str "https://adaptivecards.io/schemas/adaptive-card.json"),
    ("version", J.str "1.4"),
    ("speak", text),
    ("body", J.arr [
      J.obj [("type", J.str "TextBlock"), ("text", text), ("wrap", J.bool true)]])])

/-- One iteration of the dynamic-form field loop (adaptive_card_server.py
lines 616-674): a label block always, then an input element for the types
text, date, number, choice and checkbox (other types add no input). -/
def renderFormField (field : J) : Except String (List J) := do
  let fieldId ← field.pyGet "id"
  let ftRaw ← field.pyGetD "type" (J.str "text")
  let fieldType ← ftRaw.pyLower
  let label ← field.pyGetD "label" fieldId
  let placeholder ← field.pyGetD "placeholder" (J.str "")
  let isRequired ← field.pyGetD "isRequired" (J.bool false)
  let labelBlock :=
    J.obj [("type", J.str "TextBlock"), ("text", label), ("weight", J.str "Bolder"),
           ("spacing", J.str "Medium")]
  if fieldType == "text" then
    pure [labelBlock,
      J.obj [("type", J.str "Input.Text"), ("id", fieldId), ("placeholder", placeholder),
             ("isRequired", isRequired),
             ("errorMessage", J.str (pyStr label ++ " is required"))]]
  else if fieldType == "date" then
    pure [labelBlock,
      J.obj [("type", J.str "Input.Date"), ("id", fieldId), ("isRequired", isRequired),
             ("errorMessage", J.str (pyStr label ++ " is required"))]]
  else if fieldType == "number" then
    pure [labelBlock,
      J.obj [("type", J.str "Input.Number"), ("id", fieldId), ("placeholder", placeholder),
             ("isRequired", isRequired),
             ("errorMessage", J.str (pyStr label ++ " is required"))]]
  else if fieldType == "choice" || fieldType == "checkbox" then do
    let optionsRaw ← field.pyGetD "options" (J.arr [])
    let opts ← pyIter optionsRaw
    let choices ← opts.mapM (fun opt => do
      let t ← opt.pyGetD "title" (J.str "Option")
      let v ← opt.pyGetD "value" (J.str "val")
      pure (J.obj [("title", t), ("value", v)]))
    let isMultiRaw ← field.pyGetD "isMultiSelect" (J.bool false)
    let isMulti := pyOr isMultiRaw (J.bool (fieldType == "checkbox"))
    let style := if fieldType == "checkbox" then "expanded" else "compact"
    pure [labelBlock,
      J.obj [("type", J.str "Input.ChoiceSet"), ("id", fieldId), ("choices", J.arr choices),
             ("isMultiSelect", isMulti), ("style", J.str style), ("isRequired", isRequired),
             ("errorMessage", J.str ("Please select " ++ pyStr label))]]
  else
    pure [labelBlock]

/-- Embeds create_dynamic_form (adaptive_card_server.py lines 594-695). -/
def create_dynamic_form (data : J) : Except String J := do
  let title ← data.pyGetD "title" (J.str "Dynamic Form")
  let instructions ← data.pyGet "instructions"
  let fields ← data.pyGetD "fields" (J.arr [])
  let instrBlocks : List J :=
    if jTruthy instructions then
      [J.obj [("type", J.str "TextBlock"), ("text", instructions), ("wrap", J.bool true),
              ("isSubtle", J.bool true)]]
    else []
  let fieldList ← pyIter fields
  let fieldBlocks ← fieldList.mapM renderFormField
  let submitExtra : List (String × J) :=
    match data with
    | .obj kvs =>
      match jLookup kvs "form_id" with
      | some v => [("form_id", v)]
      | none => []
    | _ => []
  pure (J.obj [
    ("type", J.str "AdaptiveCard"),
    ("$schema", J.str "https://adaptivecards.io/schemas/adaptive-card.json"),
    ("version", J.str "1.4"),
    ("speak", J.str ("Dynamic Form: " ++ pyStr title)),
    ("body", J.arr (
      (J.obj [("type", J.str "TextBlock"), ("text", title), ("weight", J.str "Bolder"),
              ("size", J.str "Large")]) :: instrBlocks ++ fieldBlocks.flatten)),
    ("actions", J.arr [
      J.obj [("type", J.str "Action.Submit"), ("title", J.str "Submit"),
             ("data", J.obj (("action", J.str "submit_dynamic_form") :: submitExtra)),
             ("text", J.str "submit_dynamic_form"),
             ("msteams", J.obj [("type", J.str "imBack"),
                                ("value", J.str "submit_dynamic_form")])]])])

/-- Embeds the template dispatch of generate_adaptive_card
(adaptive_card_server.py lines 711-741): the template name is lowercased and
matched against the thirteen builder names, any other value falling through
to the simple builder. -/
def dispatch_card (template : String) (data_dict : J) : Except String J :=
  let t := asciiLower template
  if t == "hero" then create_hero_card data_dict
  else if t == "alert" then create_alert_card data_dict
  else if t == "data_summary" then create_data_summary_card data_dict
  else if t == "form" then create_form_card data_dict
  else if t == "list" then create_list_card data_dict
  else if t == "flight_update" then create_flight_update_card data_dict
  else if t == "weather" then create_weather_card data_dict
  else if t == "stock_update" then create_stock_update_card data_dict
  else if t == "calendar_invite" then create_calendar_invite_card data_dict
  else if t == "restaurant_details" then create_restaurant_details_card data_dict
  else if t == "popup" then create_popup_card data_dict
  else if t == "simple" then create_simple_card data_dict
  else if t == "dynamic_form" then create_dynamic_form data_dict
  else create_simple_card data_dict

/-- Embeds generate_adaptive_card (adaptive_card_server.py lines 697-743):
json.loads failure yields the fixed error object, otherwise the parsed data
is dispatched by template name. The final json.dumps serialization is out of
scope; the structured document is the result. -/
def generate_adaptive_card (template : String) (data : String) : Except String J :=
  match json_loads data with
  | none => .ok (J.obj [("error", J.str "Invalid JSON data provided.")])
  | some data_dict => dispatch_card template data_dict

/-- Embeds _build_fallback_card (agent.py lines 44-61): the minimal error
card returned by the agent when the generator tool call itself fails,
carrying one retry action that echoes the template and the serialized data. -/
def build_fallback_card (message : String) (template : String) (data_json : String) : J :=
  J.obj [
    ("type", J.str "AdaptiveCard"),
    ("$schema", J.str "http://adaptivecards.io/schemas/adaptive-card.json"),
    ("version", J.str "1.5"),
    ("body", J.arr [
      J.obj [("type", J.str "TextBlock"), ("text", J.str "Adaptive Card Generation Error"),
             ("weight", J.str "Bolder"), ("size", J.str "Medium")],
      J.obj [("type", J.str "TextBlock"), ("text", J.str message), ("wrap", J.bool true)]]),
    ("actions", J.arr [
      J.obj [("type", J.str "Action.Submit"), ("title", J.str "Retry"),
             ("data", J.obj [("action", J.str "retry"), ("template", J.str template),
                             ("originalData", J.str data_json)])]])]

/-- Whether a submitted value counts as missing in validate_form_submission
(agent.py line 139): Python None (which JSON null becomes) or the empty
string. -/
def isMissingVal : J → Bool
  | .null => true
  | .str s => s == ""
  | _ => false

/-- Whether a JSON-compatible value is hashable in Python, i.e. usable as a
dict key: lists and dicts are not, everything else here is. -/
def jHashable : J → Bool
  | .arr _ => false
  | .obj _ => false
  | _ => true

/-- Python lookup of a JSON-compatible value used as a key in a dict whose
keys are strings (the submission data and FORM_STORE): a string is looked
up, the other hashable values (None, booleans, numbers) are never equal to
a string key, and the unhashable values (lists, dicts) raise TypeError.
Models submission_data.get(fid) at agent.py line 137 as well as the pair
of form_id not in FORM_STORE at line 123 and the FORM_STORE index at line
130. -/
def pyDictGetKey (kvs : List (String × J)) : J → Except String (Option J)
  | .str s => .ok (jLookup kvs s)
  | .arr _ => .error "TypeError: unhashable type: \x27list\x27"
  | .obj _ => .error "TypeError: unhashable type: \x27dict\x27"
  | _ => .ok none

/-- One iteration of the required-field loop of validate_form_submission
(agent.py lines 134-140): the error line for the field, when its required
flag is truthy and the submitted value is missing; an unhashable field id
raises TypeError inside submission_data.get. -/
def fieldError (subKvs : List (String × J)) (field : J) : Except String (Option String) := do
  let fid ← field.pyGet "id"
  let label ← field.pyGetD "label" fid
  let valOpt ← pyDictGetKey subKvs fid
  let val : J := valOpt.getD J.null
  let isReq ← field.pyGet "isRequired"
  if jTruthy isReq && isMissingVal val then
    pure (some ("- " ++ pyStr label ++ " is required."))
  else
    pure none

/-- The error lines collected over the field list, in field order, one per
failing required field (the errors list built by the loop of agent.py lines
132-140). -/
def collectErrors (subKvs : List (String × J)) : List J → Except String (List String)
  | [] => .ok []
  | f :: rest => do
    let e ← fieldError subKvs f
    let es ← collectErrors subKvs rest
    pure (match e with
      | some s => s :: es
      | none => es)

/-- Embeds validate_form_submission (agent.py lines 95-153). The global
FORM_STORE dict is an explicit association-list parameter, and the round
trip through the MCP transport to the simple template (the agent-side
generate_adaptive_card wrapper, whose json.dumps/json.loads round trip is
the identity on these message objects) is modelled as a direct call to the
dispatcher. Submissions arriving as JSON are taken already parsed. -/
def validate_form_submission (store : List (String × J)) (submission_data : J) :
    Except String J :=
  match submission_data with
  | .obj subKvs =>
    let form_id := (jLookup subKvs "form_id").getD J.null
    if !(jTruthy form_id) then
      dispatch_card "simple" (J.obj [("message",
        J.str ("Error: Form session \x27" ++ pyStr form_id ++ "\x27 not found or expired."))])
    else do
      let stored ← pyDictGetKey store form_id
      match stored with
      | none =>
        dispatch_card "simple" (J.obj [("message",
          J.str ("Error: Form session \x27" ++ pyStr form_id ++ "\x27 not found or expired."))])
      | some definition => do
        let fields ← definition.pyGetD "fields" (J.arr [])
        let fieldList ← pyIter fields
        let errors ← collectErrors subKvs fieldList
        if !errors.isEmpty then
          dispatch_card "simple" (J.obj [("message",
            J.str ("Validation Failed:\n" ++ joinSep "\n" errors))])
        else do
          let title ← definition.pyGet "title"
          dispatch_card "simple" (J.obj [("message",
            J.str ("Success! Your submission for \x27" ++ pyStr title ++
                   "\x27 has been validated."))])
  | _ =>
    dispatch_card "simple" (J.obj [("message",
      J.str "Error: Invalid submission data received.")])

/-- Field lookup on a document object (observer used by the theorems). -/
def jField (c : J) (k : String) : Option J :=
  match c with
  | .obj kvs => jLookup kvs k
  | _ => none

/-- The body block list of a document. -/
def bodyBlocks (c : J) : List J :=
  match jField c "body" with
  | some (.arr xs) => xs
  | _ => []

/-- The string value of a field of a document object, when it is a string. -/
def strField (c : J) (k : String) : Option String :=
  match jField c k with
  | some (.str s) => some s
  | _ => none

/-- The thirteen template names enumerated by the dispatch chain. -/
def templateNames : List String :=
  ["hero", "alert", "data_summary", "form", "list", "flight_update", "weather",
   "stock_update", "calendar_invite", "restaurant_details", "popup", "simple", "dynamic_form"]

/-- The render-output invariant of claim C7: the top-level type field is the
fixed card-kind marker and the body is a non-empty block sequence. -/
def GoodCard (c : J) : Prop :=
  strField c "type" = some "AdaptiveCard" ∧ bodyBlocks c ≠ []

/-- Field k of the i-th body block of a document (observer). -/
def blockField (c : J) (i : Nat) (k : String) : Option J :=
  ((bodyBlocks c).get? i).bind (fun b => jField b k)

/-- Association list with the given keys removed (observer used to state
which keys a builder is insensitive to). -/
def removeKeys (kvs : List (String × J)) (ks : List String) : List (String × J) :=
  kvs.filter (fun kv => !(ks.contains kv.1))

/-- Whether a value is a JSON object. -/
def jIsObj : J → Bool
  | .obj _ => true
  | _ => false

/-- Specification-side reading of the validator loop condition: the field is
marked required and the submission has no non-empty value for its id. -/
def fieldRequiredAndMissing (subKvs : List (String × J)) (field : J) : Bool :=
  match field with
  | .obj fkvs =>
    let fid := (jLookup fkvs "id").getD J.null
    let isReq := (jLookup fkvs "isRequired").getD J.null
    let val : J :=
      match fid with
      | .str s => (jLookup subKvs s).getD J.null
      | _ => J.null
    jTruthy isReq && isMissingVal val
  | _ => false

/-- The label the validator reports for a field: its label key, defaulting
to its id. -/
def fieldLabel (field : J) : J :=
  match field with
  | .obj fkvs => (jLookup fkvs "label").getD ((jLookup fkvs "id").getD J.null)
  | _ => J.null

/-- The id value of a field specification (observer). -/
def fieldIdOf (field : J) : J :=
  match field with
  | .obj fkvs => (jLookup fkvs "id").getD J.null
  | _ => J.null

/-- The simple card carrying one non-empty message string: what the
validator returns through the simple template. -/
def simpleMsgCard (msg : String) : J :=
  J.obj [
    ("type", J.str "AdaptiveCard"),
    ("$schema", J.str "https://adaptivecards.io/schemas/adaptive-card.json"),
    ("version", J.str "1.4"),
    ("speak", J.str msg),
    ("body", J.arr [
      J.obj [("type", J.str "TextBlock"), ("text", J.str msg), ("wrap", J.bool true)]])]

/-- The acknowledge action attached by the alert builder for non-low
severities (statement-side copy for the C4 theorem). -/
def acknowledgeAction : J :=
  J.obj [("type", J.str "Action.Submit"), ("title", J.str "Acknowledge"),
         ("data", J.obj [("action", J.str "acknowledge")]), ("text", J.str "acknowledge"),
         ("msteams", J.obj [("type", J.str "imBack"), ("value", J.str "acknowledge")])]

/-- C2: for every data value d and every template string t that does not
match (case-insensitively) one of the thirteen enumerated template names,
the dispatch renders the identical document to the simple template on the
same data; and template lookup is case-insensitive, so two template strings
with the same lowercasing always select the same builder. -/
theorem c2_unknown_template_falls_back_to_simple :
    (∀ t d, asciiLower t ∉ templateNames →
      dispatch_card t d = dispatch_card "simple" d) ∧
    (∀ t1 t2 d, asciiLower t1 = asciiLower t2 →
      dispatch_card t1 d = dispatch_card t2 d) := by
  constructor
  · intro t d h
    simp only [templateNames, List.mem_cons, List.not_mem_nil, or_false, not_or] at h
    obtain ⟨h1, h2, h3, h4, h5, h6, h7, h8, h9, h10, h11, h12, h13⟩ := h
    have e : ∀ n : String, asciiLower t ≠ n → (asciiLower t == n) = false :=
      fun n hn => beq_eq_false_iff_ne.mpr hn
    simp only [dispatch_card, e _ h1, e _ h2, e _ h3, e _ h4, e _ h5, e _ h6, e _ h7,
      e _ h8, e _ h9, e _ h10, e _ h11, e _ h12, e _ h13, Bool.false_eq_true, if_false]
    rfl
  · intro t1 t2 d h
    simp only [dispatch_card, h]

/-- Witness for C2 at the concrete inputs totally_unknown and SIMPLE. -/
theorem c2_witness :
    dispatch_card "totally_unknown" (J.obj [("message", J.str "x")]) =
      dispatch_card "simple" (J.obj [("message", J.str "x")]) ∧
    dispatch_card "SIMPLE" (J.obj [("message", J.str "x")]) =
      dispatch_card "simple" (J.obj [("message", J.str "x")]) :=
  ⟨c2_unknown_template_falls_back_to_simple.1 "totally_unknown" _ (by decide),
   c2_unknown_template_falls_back_to_simple.2 "SIMPLE" "simple" _ (by decide)⟩


theorem exbind_ok {α β : Type} {x : Except String α} {f : α → Except String β} {b : β}
    (h : x >>= f = .ok b) : ∃ a, x = .ok a ∧ f a = .ok b := by
  cases x with
  | error e => exact absurd h (by simp [Bind.bind, Except.bind])
  | ok a => exact ⟨a, rfl, by simpa [Bind.bind, Except.bind] using h⟩

theorem ok_shape_hero : ∀ d c, create_hero_card d = .ok c → GoodCard c := by
  intro d c h
  simp only [create_hero_card] at h
  repeat obtain ⟨_, _, h⟩ := exbind_ok h
  simp only [pure, Except.pure, Except.ok.injEq] at h
  cases h
  exact ⟨rfl, by simp [bodyBlocks, jField, jLookup]⟩

theorem ok_shape_alert : ∀ d c, create_alert_card d = .ok c → GoodCard c := by
  intro d c h
  simp only [create_alert_card] at h
  repeat obtain ⟨_, _, h⟩ := exbind_ok h
  simp only [pure, Except.pure, Except.ok.injEq] at h
  cases h
  exact ⟨rfl, by simp [bodyBlocks, jField, jLookup]⟩

theorem ok_shape_data_summary : ∀ d c, create_data_summary_card d = .ok c → GoodCard c := by
  intro d c h
  simp only [create_data_summary_card] at h
  repeat obtain ⟨_, _, h⟩ := exbind_ok h
  simp only [pure, Except.pure, Except.ok.injEq] at h
  cases h
  exact ⟨rfl, by simp [bodyBlocks, jField, jLookup]⟩

theorem ok_shape_form : ∀ d c, create_form_card d = .ok c → GoodCard c := by
  intro d c h
  simp only [create_form_card] at h
  repeat obtain ⟨_, _, h⟩ := exbind_ok h
  simp only [pure, Except.pure, Except.ok.injEq] at h
  cases h
  exact ⟨rfl, by simp [bodyBlocks, jField, jLookup]⟩

theorem ok_shape_list : ∀ d c, create_list_card d = .ok c → GoodCard c := by
  intro d c h
  simp only [create_list_card] at h
  obtain ⟨_, _, h⟩ := exbind_ok h
  obtain ⟨_, _, h⟩ := exbind_ok h
  obtain ⟨_, _, h⟩ := exbind_ok h
  obtain ⟨_, _, h⟩ := exbind_ok h
  split at h <;>
    (repeat obtain ⟨_, _, h⟩ := exbind_ok h) <;>
    simp only [pure, Except.pure, Except.ok.injEq] at h <;>
    (cases h; exact ⟨rfl, by simp [bodyBlocks, jField, jLookup]⟩)

theorem ok_shape_flight : ∀ d c, create_flight_update_card d = .ok c → GoodCard c := by
  intro d c h
  simp only [create_flight_update_card] at h
  repeat obtain ⟨_, _, h⟩ := exbind_ok h
  simp only [pure, Except.pure, Except.ok.injEq] at h
  cases h
  exact ⟨rfl, by simp [bodyBlocks, jField, jLookup]⟩

theorem ok_shape_weather : ∀ d c, create_weather_card d = .ok c → GoodCard c := by
  intro d c h
  simp only [create_weather_card] at h
  repeat obtain ⟨_, _, h⟩ := exbind_ok h
  simp only [pure, Except.pure, Except.ok.injEq] at h
  cases h
  exact ⟨rfl, by simp [bodyBlocks, jField, jLookup]⟩

theorem ok_shape_stock : ∀ d c, create_stock_update_card d = .ok c → GoodCard c := by
  intro d c h
  simp only [create_stock_update_card] at h
  repeat obtain ⟨_, _, h⟩ := exbind_ok h
  simp only [pure, Except.pure, Except.ok.injEq] at h
  cases h
  exact ⟨rfl, by simp [bodyBlocks, jField, jLookup]⟩

theorem ok_shape_calendar : ∀ d c, create_calendar_invite_card d = .ok c → GoodCard c := by
  intro d c h
  simp only [create_calendar_invite_card] at h
  repeat obtain ⟨_, _, h⟩ := exbind_ok h
  simp only [pure, Except.pure, Except.ok.injEq] at h
  cases h
  exact ⟨rfl, by simp [bodyBlocks, jField, jLookup]⟩

theorem ok_shape_restaurant : ∀ d c, create_restaurant_details_card d = .ok c → GoodCard c := by
  intro d c h
  simp only [create_restaurant_details_card] at h
  repeat obtain ⟨_, _, h⟩ := exbind_ok h
  simp only [pure, Except.pure, Except.ok.injEq] at h
  cases h
  exact ⟨rfl, by simp [bodyBlocks, jField, jLookup]⟩

theorem ok_shape_popup : ∀ d c, create_popup_card d = .ok c → GoodCard c := by
  intro d c h
  simp only [create_popup_card] at h
  repeat obtain ⟨_, _, h⟩ := exbind_ok h
  simp only [pure, Except.pure, Except.ok.injEq] at h
  cases h
  exact ⟨rfl, by simp [bodyBlocks, jField, jLookup]⟩

theorem ok_shape_simple : ∀ d c, create_simple_card d = .ok c → GoodCard c := by
  intro d c h
  simp only [create_simple_card] at h
  repeat obtain ⟨_, _, h⟩ := exbind_ok h
  simp only [pure, Except.pure, Except.ok.injEq] at h
  cases h
  exact ⟨rfl, by simp [bodyBlocks, jField, jLookup]⟩

theorem ok_shape_dynamic_form : ∀ d c, create_dynamic_form d = .ok c → GoodCard c := by
  intro d c h
  simp only [create_dynamic_form] at h
  repeat obtain ⟨_, _, h⟩ := exbind_ok h
  simp only [pure, Except.pure, Except.ok.injEq] at h
  cases h
  exact ⟨rfl, by simp [bodyBlocks, jField, jLookup]⟩

/-- C7 (amended): whenever the dispatch returns a document — the builders can
raise on ill-typed field values, see the counterexample — the document has
top-level type AdaptiveCard and a non-empty body, for every template string
(recognized or not) and every data value. -/
theorem c7_returned_documents_have_marker_and_nonempty_body :
    ∀ template d c, dispatch_card template d = .ok c →
      strField c "type" = some "AdaptiveCard" ∧ bodyBlocks c ≠ [] := by
  intro template d c h
  simp only [dispatch_card] at h
  by_cases h1 : (asciiLower template == "hero") = true
  · rw [if_pos h1] at h
    exact ok_shape_hero _ _ h
  rw [if_neg h1] at h
  by_cases h2 : (asciiLower template == "alert") = true
  · rw [if_pos h2] at h
    exact ok_shape_alert _ _ h
  rw [if_neg h2] at h
  by_cases h3 : (asciiLower template == "data_summary") = true
  · rw [if_pos h3] at h
    exact ok_shape_data_summary _ _ h
  rw [if_neg h3] at h
  by_cases h4 : (asciiLower template == "form") = true
  · rw [if_pos h4] at h
    exact ok_shape_form _ _ h
  rw [if_neg h4] at h
  by_cases h5 : (asciiLower template == "list") = true
  · rw [if_pos h5] at h
    exact ok_shape_list _ _ h
  rw [if_neg h5] at h
  by_cases h6 : (asciiLower template == "flight_update") = true
  · rw [if_pos h6] at h
    exact ok_shape_flight _ _ h
  rw [if_neg h6] at h
  by_cases h7 : (asciiLower template == "weather") = true
  · rw [if_pos h7] at h
    exact ok_shape_weather _ _ h
  rw [if_neg h7] at h
  by_cases h8 : (asciiLower template == "stock_update") = true
  · rw [if_pos h8] at h
    exact ok_shape_stock _ _ h
  rw [if_neg h8] at h
  by_cases h9 : (asciiLower template == "calendar_invite") = true
  · rw [if_pos h9] at h
    exact ok_shape_calendar _ _ h
  rw [if_neg h9] at h
  by_cases h10 : (asciiLower template == "restaurant_details") = true
  · rw [if_pos h10] at h
    exact ok_shape_restaurant _ _ h
  rw [if_neg h10] at h
  by_cases h11 : (asciiLower template == "popup") = true
  · rw [if_pos h11] at h
    exact ok_shape_popup _ _ h
  rw [if_neg h11] at h
  by_cases h12 : (asciiLower template == "simple") = true
  · rw [if_pos h12] at h
    exact ok_shape_simple _ _ h
  rw [if_neg h12] at h
  by_cases h13 : (asciiLower template == "dynamic_form") = true
  · rw [if_pos h13] at h
    exact ok_shape_dynamic_form _ _ h
  rw [if_neg h13] at h
  exact ok_shape_simple _ _ h

/-- C7 counterexample: the claim as stated fails — for the recognized
template stock_update and the JSON object with a non-numeric change field,
render raises a ValueError inside float() and returns no document at all. -/
theorem c7_counterexample_stock_update_raises :
    generate_adaptive_card "stock_update" "\x7b\"change\": \"abc\"\x7d" =
      .error "ValueError: could not convert string to float" := rfl

/-- Witness for C7 at the concrete input (simple, empty object). -/
theorem c7_witness :
    strField (J.obj [("type", J.str "AdaptiveCard"),
      ("$schema", J.str "https://adaptivecards.io/schemas/adaptive-card.json"),
      ("version", J.str "1.4"), ("speak", J.str "No content provided."),
      ("body", J.arr [J.obj [("type", J.str "TextBlock"),
        ("text", J.str "No content provided."), ("wrap", J.bool true)]])]) "type" =
      some "AdaptiveCard" ∧
    bodyBlocks (J.obj [("type", J.str "AdaptiveCard"),
      ("$schema", J.str "https://adaptivecards.io/schemas/adaptive-card.json"),
      ("version", J.str "1.4"), ("speak", J.str "No content provided."),
      ("body", J.arr [J.obj [("type", J.str "TextBlock"),
        ("text", J.str "No content provided."), ("wrap", J.bool true)]])]) ≠ [] :=
  c7_returned_documents_have_marker_and_nonempty_body "simple" (J.obj []) _ rfl

/-- C8: rendering never raises on missing fields — every template applied to
the empty object succeeds, the nine builders with only defaulted field
accesses succeed on every object, and the four builders with a fallible
field coercion (alert lowercases severity, stock coerces change with float,
list iterates the selected items, dynamic form iterates the field list)
succeed on every object in which that field is absent. -/
theorem c8_missing_fields_never_raise :
    (∀ template, (dispatch_card template (J.obj [])).isOk = true) ∧
    (∀ kvs, (create_hero_card (J.obj kvs)).isOk = true) ∧
    (∀ kvs, (create_data_summary_card (J.obj kvs)).isOk = true) ∧
    (∀ kvs, (create_form_card (J.obj kvs)).isOk = true) ∧
    (∀ kvs, (create_flight_update_card (J.obj kvs)).isOk = true) ∧
    (∀ kvs, (create_weather_card (J.obj kvs)).isOk = true) ∧
    (∀ kvs, (create_calendar_invite_card (J.obj kvs)).isOk = true) ∧
    (∀ kvs, (create_restaurant_details_card (J.obj kvs)).isOk = true) ∧
    (∀ kvs, (create_popup_card (J.obj kvs)).isOk = true) ∧
    (∀ kvs, (create_simple_card (J.obj kvs)).isOk = true) ∧
    (∀ kvs, jLookup kvs "severity" = none →
      (create_alert_card (J.obj kvs)).isOk = true) ∧
    (∀ kvs, jLookup kvs "change" = none →
      (create_stock_update_card (J.obj kvs)).isOk = true) ∧
    (∀ kvs, jLookup kvs "items" = none → jLookup kvs "tasks" = none →
      jLookup kvs "checklist" = none → (create_list_card (J.obj kvs)).isOk = true) ∧
    (∀ kvs, jLookup kvs "fields" = none →
      (create_dynamic_form (J.obj kvs)).isOk = true) := by
  refine ⟨?_, fun kvs => rfl, fun kvs => rfl, fun kvs => rfl, fun kvs => rfl, fun kvs => rfl,
    fun kvs => rfl, fun kvs => rfl, fun kvs => rfl, fun kvs => rfl, ?_, ?_, ?_, ?_⟩
  · intro template
    simp only [dispatch_card]
    by_cases h1 : (asciiLower template == "hero") = true
    · rw [if_pos h1]; rfl
    rw [if_neg h1]
    by_cases h2 : (asciiLower template == "alert") = true
    · rw [if_pos h2]; rfl
    rw [if_neg h2]
    by_cases h3 : (asciiLower template == "data_summary") = true
    · rw [if_pos h3]; rfl
    rw [if_neg h3]
    by_cases h4 : (asciiLower template == "form") = true
    · rw [if_pos h4]; rfl
    rw [if_neg h4]
    by_cases h5 : (asciiLower template == "list") = true
    · rw [if_pos h5]; rfl
    rw [if_neg h5]
    by_cases h6 : (asciiLower template == "flight_update") = true
    · rw [if_pos h6]; rfl
    rw [if_neg h6]
    by_cases h7 : (asciiLower template == "weather") = true
    · rw [if_pos h7]; rfl
    rw [if_neg h7]
    by_cases h8 : (asciiLower template == "stock_update") = true
    · rw [if_pos h8]; rfl
    rw [if_neg h8]
    by_cases h9 : (asciiLower template == "calendar_invite") = true
    · rw [if_pos h9]; rfl
    rw [if_neg h9]
    by_cases h10 : (asciiLower template == "restaurant_details") = true
    · rw [if_pos h10]; rfl
    rw [if_neg h10]
    by_cases h11 : (asciiLower template == "popup") = true
    · rw [if_pos h11]; rfl
    rw [if_neg h11]
    by_cases h12 : (asciiLower template == "simple") = true
    · rw [if_pos h12]; rfl
    rw [if_neg h12]
    by_cases h13 : (asciiLower template == "dynamic_form") = true
    · rw [if_pos h13]; rfl
    rw [if_neg h13]
    rfl
  · intro kvs h
    simp only [create_alert_card, J.pyGetD, h, Option.getD]
    rfl
  · intro kvs h
    simp only [create_stock_update_card, J.pyGetD, h, Option.getD]
    rfl
  · intro kvs h1 h2 h3
    simp only [create_list_card, J.pyGet, h1, h2, h3, Option.getD]
    rfl
  · intro kvs h
    simp only [create_dynamic_form, J.pyGetD, h, Option.getD]
    rfl

/-- Witness for C8 at the empty object. -/
theorem c8_witness :
    (create_alert_card (J.obj [])).isOk = true ∧
    (create_stock_update_card (J.obj [])).isOk = true ∧
    (create_list_card (J.obj [])).isOk = true ∧
    (create_dynamic_form (J.obj [])).isOk = true :=
  ⟨c8_missing_fields_never_raise.2.2.2.2.2.2.2.2.2.2.1 [] rfl,
   c8_missing_fields_never_raise.2.2.2.2.2.2.2.2.2.2.2.1 [] rfl,
   c8_missing_fields_never_raise.2.2.2.2.2.2.2.2.2.2.2.2.1 [] rfl rfl rfl,
   c8_missing_fields_never_raise.2.2.2.2.2.2.2.2.2.2.2.2.2 [] rfl⟩

/-- C4: for the alert builder, with the severity slot (defaulting to low)
holding a string s compared case-insensitively: lowercased severity low
yields a null action list, any other severity yields exactly one Acknowledge
action, and the first body block's color tier is Good for low, Warning for
medium and Attention otherwise (in particular for high). -/
theorem c4_alert_severity_actions_and_tier :
    ∀ kvs s c, (jLookup kvs "severity").getD (J.str "low") = J.str s →
      create_alert_card (J.obj kvs) = .ok c →
      (asciiLower s = "low" → jField c "actions" = some J.null) ∧
      (asciiLower s ≠ "low" → jField c "actions" = some (J.arr [acknowledgeAction])) ∧
      blockField c 0 "color" = some (J.str (if asciiLower s = "low" then "Good"
        else if asciiLower s = "medium" then "Warning" else "Attention")) := by
  intro kvs s c hsev h
  simp only [create_alert_card, J.pyGetD, hsev, J.pyLower, bind, Except.bind, pure,
    Except.pure, Except.ok.injEq] at h
  cases h
  refine ⟨?_, ?_, ?_⟩
  · intro hlow
    simp [jField, jLookup, hlow]
  · intro hne
    simp [jField, jLookup, acknowledgeAction, bne, beq_eq_false_iff_ne.mpr hne]
  · by_cases hlow : asciiLower s = "low"
    · simp [blockField, bodyBlocks, jField, jLookup, hlow]
    · by_cases hmed : asciiLower s = "medium"
      · simp [blockField, bodyBlocks, jField, jLookup, hmed,
          beq_eq_false_iff_ne.mpr hlow, hlow]
      · simp [blockField, bodyBlocks, jField, jLookup, beq_eq_false_iff_ne.mpr hlow,
          beq_eq_false_iff_ne.mpr hmed, hlow, hmed]

/-- Witness for C4 at the concrete severities HIGH and absent. -/
theorem c4_witness :
    (asciiLower "HIGH" = "low" →
        jField (J.obj [("type", J.str "AdaptiveCard"),
          ("$schema", J.str "https://adaptivecards.io/schemas/adaptive-card.json"),
          ("version", J.str "1.4"),
          ("speak", J.str "Status Alert: HIGH. No details provided."),
          ("body", J.arr [
            J.obj [("type", J.str "TextBlock"), ("text", J.str "Status Alert: HIGH"),
                   ("weight", J.str "Bolder"), ("size", J.str "Medium"),
                   ("color", J.str "Attention")],
            J.obj [("type", J.str "FactSet"), ("facts", J.arr [
              J.obj [("title", J.str "Value:"), ("value", J.str "0")],
              J.obj [("title", J.str "Severity:"), ("value", J.str "High")]])],
            J.obj [("type", J.str "TextBlock"), ("text", J.str "No details provided."),
                   ("wrap", J.bool true)]]),
          ("actions", J.arr [acknowledgeAction])]) "actions" = some J.null) ∧
      (asciiLower "HIGH" ≠ "low" →
        jField (J.obj [("type", J.str "AdaptiveCard"),
          ("$schema", J.str "https://adaptivecards.io/schemas/adaptive-card.json"),
          ("version", J.str "1.4"),
          ("speak", J.str "Status Alert: HIGH. No details provided."),
          ("body", J.arr [
            J.obj [("type", J.str "TextBlock"), ("text", J.str "Status Alert: HIGH"),
                   ("weight", J.str "Bolder"), ("size", J.str "Medium"),
                   ("color", J.str "Attention")],
            J.obj [("type", J.str "FactSet"), ("facts", J.arr [
              J.obj [("title", J.str "Value:"), ("value", J.str "0")],
              J.obj [("title", J.str "Severity:"), ("value", J.str "High")]])],
            J.obj [("type", J.str "TextBlock"), ("text", J.str "No details provided."),
                   ("wrap", J.bool true)]]),
          ("actions", J.arr [acknowledgeAction])]) "actions" =
          some (J.arr [acknowledgeAction])) ∧
      blockField (J.obj [("type", J.str "AdaptiveCard"),
        ("$schema", J.str "https://adaptivecards.io/schemas/adaptive-card.json"),
        ("version", J.str "1.4"),
        ("speak", J.str "Status Alert: HIGH. No details provided."),
        ("body", J.arr [
          J.obj [("type", J.str "TextBlock"), ("text", J.str "Status Alert: HIGH"),
                 ("weight", J.str "Bolder"), ("size", J.str "Medium"),
                 ("color", J.str "Attention")],
          J.obj [("type", J.str "FactSet"), ("facts", J.arr [
            J.obj [("title", J.str "Value:"), ("value", J.str "0")],
            J.obj [("title", J.str "Severity:"), ("value", J.str "High")]])],
          J.obj [("type", J.str "TextBlock"), ("text", J.str "No details provided."),
                 ("wrap", J.bool true)]]),
        ("actions", J.arr [acknowledgeAction])]) 0 "color" =
        some (J.str (if asciiLower "HIGH" = "low" then "Good"
          else if asciiLower "HIGH" = "medium" then "Warning" else "Attention")) :=
  c4_alert_severity_actions_and_tier [("severity", J.str "HIGH")] "HIGH" _ rfl rfl

/-- C10: the simple builder selects its displayed text as the first of the
keys message, text, content whose value is truthy; when each of the three is
absent or the empty string the body is exactly one block with the
placeholder text No content provided. — in particular a present-but-empty
message renders the placeholder. -/
theorem c10_simple_first_truthy_else_placeholder :
    ∀ kvs c, create_simple_card (J.obj kvs) = .ok c →
      (∀ v, jLookup kvs "message" = some v → jTruthy v = true →
        bodyBlocks c =
          [J.obj [("type", J.str "TextBlock"), ("text", v), ("wrap", J.bool true)]]) ∧
      (∀ v, (∀ m, jLookup kvs "message" = some m → jTruthy m = false) →
        jLookup kvs "text" = some v → jTruthy v = true →
        bodyBlocks c =
          [J.obj [("type", J.str "TextBlock"), ("text", v), ("wrap", J.bool true)]]) ∧
      (∀ v, (∀ m, jLookup kvs "message" = some m → jTruthy m = false) →
        (∀ m, jLookup kvs "text" = some m → jTruthy m = false) →
        jLookup kvs "content" = some v → jTruthy v = true →
        bodyBlocks c =
          [J.obj [("type", J.str "TextBlock"), ("text", v), ("wrap", J.bool true)]]) ∧
      ((∀ k ∈ (["message", "text", "content"] : List String),
          jLookup kvs k = none ∨ jLookup kvs k = some (J.str "")) →
        bodyBlocks c = [J.obj [("type", J.str "TextBlock"),
          ("text", J.str "No content provided."), ("wrap", J.bool true)]]) := by
  intro kvs c h
  have hnull : jTruthy J.null = false := rfl
  have hempty : jTruthy (J.str "") = false := rfl
  simp only [create_simple_card, J.pyGet, bind, Except.bind, pure, Except.pure,
    Except.ok.injEq] at h
  cases h
  refine ⟨?_, ?_, ?_, ?_⟩
  · intro v hv htr
    simp [bodyBlocks, jField, jLookup, hv, pyOr, htr]
  · intro v hmf hv htr
    cases hm : jLookup kvs "message" with
    | none => simp [bodyBlocks, jField, jLookup, hm, hv, pyOr, htr, hnull]
    | some m =>
      have hm0 := hmf m hm
      simp [bodyBlocks, jField, jLookup, hm, hv, pyOr, htr, hm0]
  · intro v hmf htf hv htr
    cases hm : jLookup kvs "message" with
    | none =>
      cases ht : jLookup kvs "text" with
      | none => simp [bodyBlocks, jField, jLookup, hm, ht, hv, pyOr, htr, hnull]
      | some m =>
        have ht0 := htf m ht
        simp [bodyBlocks, jField, jLookup, hm, ht, hv, pyOr, htr, ht0, hnull]
    | some m =>
      have hm0 := hmf m hm
      cases ht : jLookup kvs "text" with
      | none => simp [bodyBlocks, jField, jLookup, hm, ht, hv, pyOr, htr, hm0, hnull]
      | some m2 =>
        have ht0 := htf m2 ht
        simp [bodyBlocks, jField, jLookup, hm, ht, hv, pyOr, htr, hm0, ht0, hnull]
  · intro hall
    have hm := hall "message" (by simp)
    have ht := hall "text" (by simp)
    have hc := hall "content" (by simp)
    rcases hm with hm | hm <;> rcases ht with ht | ht <;> rcases hc with hc | hc <;>
      simp [bodyBlocks, jField, jLookup, hm, ht, hc, pyOr, hnull, hempty]

/-- Witness for C10: a present-but-empty message renders the placeholder,
and a truthy message is displayed as given. -/
theorem c10_witness :
    bodyBlocks (simpleMsgCard "No content provided.") =
      [J.obj [("type", J.str "TextBlock"), ("text", J.str "No content provided."),
              ("wrap", J.bool true)]] ∧
    bodyBlocks (simpleMsgCard "hello") =
      [J.obj [("type", J.str "TextBlock"), ("text", J.str "hello"),
              ("wrap", J.bool true)]] :=
  ⟨(c10_simple_first_truthy_else_placeholder [("message", J.str "")] _ rfl).2.2.2
      (by
        intro k hk
        simp only [List.mem_cons, List.not_mem_nil, or_false] at hk
        rcases hk with rfl | rfl | rfl
        · exact Or.inr rfl
        · exact Or.inl rfl
        · exact Or.inl rfl),
   (c10_simple_first_truthy_else_placeholder [("message", J.str "hello")] _ rfl).1
      (J.str "hello") rfl rfl⟩

theorem jLookup_removeKeys_of_not_mem (kvs : List (String × J)) (ks : List String)
    (k : String) (hk : k ∉ ks) :
    jLookup (removeKeys kvs ks) k = jLookup kvs k := by
  induction kvs with
  | nil => rfl
  | cons kv rest ih =>
    obtain ⟨k0, v0⟩ := kv
    by_cases hm : k0 ∈ ks
    · have hne : (k0 == k) = false := beq_eq_false_iff_ne.mpr (fun he => hk (he ▸ hm))
      simp only [removeKeys, List.filter_cons] at ih ⊢
      simp [hm, jLookup, hne] at ih ⊢
      exact ih
    · simp only [removeKeys, List.filter_cons] at ih ⊢
      simp [hm, jLookup] at ih ⊢
      rw [ih]

theorem jLookup_removeKeys_of_mem (kvs : List (String × J)) (ks : List String)
    (k : String) (hk : k ∈ ks) :
    jLookup (removeKeys kvs ks) k = none := by
  induction kvs with
  | nil => rfl
  | cons kv rest ih =>
    obtain ⟨k0, v0⟩ := kv
    by_cases hm : k0 ∈ ks
    · simp only [removeKeys, List.filter_cons] at ih ⊢
      simp [hm] at ih ⊢
      exact ih
    · have hne : (k0 == k) = false := beq_eq_false_iff_ne.mpr (fun he => hm (he ▸ hk))
      simp only [removeKeys, List.filter_cons] at ih ⊢
      simp [hm, jLookup, hne] at ih ⊢
      exact ih

/-- C3 (amended): the list builder takes its items from the first of the
keys items, tasks, checklist whose value is truthy (non-empty): when items
is truthy the tasks and checklist entries are irrelevant, when items is
absent or falsy and tasks is truthy the checklist entry is irrelevant, and
when all three are absent or falsy the body is the title block followed by
the explicit no-items placeholder block. -/
theorem c3_list_first_truthy_key_and_placeholder :
    (∀ kvs v, jLookup kvs "items" = some v → jTruthy v = true →
      create_list_card (J.obj kvs) =
        create_list_card (J.obj (removeKeys kvs ["tasks", "checklist"]))) ∧
    (∀ kvs v, (∀ w, jLookup kvs "items" = some w → jTruthy w = false) →
      jLookup kvs "tasks" = some v → jTruthy v = true →
      create_list_card (J.obj kvs) =
        create_list_card (J.obj (removeKeys kvs ["checklist"]))) ∧
    (∀ kvs c, (∀ w, jLookup kvs "items" = some w → jTruthy w = false) →
      (∀ w, jLookup kvs "tasks" = some w → jTruthy w = false) →
      (∀ w, jLookup kvs "checklist" = some w → jTruthy w = false) →
      create_list_card (J.obj kvs) = .ok c →
      bodyBlocks c = [
        J.obj [("type", J.str "TextBlock"),
               ("text", pyOr ((jLookup kvs "title").getD J.null) (J.str "Item List")),
               ("size", J.str "Medium"), ("weight", J.str "Bolder")],
        J.obj [("type", J.str "TextBlock"), ("text", J.str "(No items found)"),
               ("isSubtle", J.bool true), ("italic", J.bool true)]]) := by
  have hnull : jTruthy J.null = false := rfl
  refine ⟨?_, ?_, ?_⟩
  · intro kvs v hv htr
    have h1 : jLookup (removeKeys kvs ["tasks", "checklist"]) "items" = some v := by
      rw [jLookup_removeKeys_of_not_mem _ _ _ (by simp), hv]
    have h2 : jLookup (removeKeys kvs ["tasks", "checklist"]) "title" = jLookup kvs "title" :=
      jLookup_removeKeys_of_not_mem _ _ _ (by simp)
    simp only [create_list_card, J.pyGet, bind, Except.bind, hv, h1, h2, Option.getD,
      pyOr, htr, if_true]
  · intro kvs v hif hv htr
    have h1 : jLookup (removeKeys kvs ["checklist"]) "items" = jLookup kvs "items" :=
      jLookup_removeKeys_of_not_mem _ _ _ (by simp)
    have h2 : jLookup (removeKeys kvs ["checklist"]) "tasks" = jLookup kvs "tasks" :=
      jLookup_removeKeys_of_not_mem _ _ _ (by simp)
    have h3 : jLookup (removeKeys kvs ["checklist"]) "title" = jLookup kvs "title" :=
      jLookup_removeKeys_of_not_mem _ _ _ (by simp)
    cases hi : jLookup kvs "items" with
    | none =>
      simp only [create_list_card, J.pyGet, bind, Except.bind, hi, h1, h2, h3, hv,
        Option.getD, pyOr, htr, hnull, if_true, Bool.false_eq_true, if_false]
    | some w =>
      have hw := hif w hi
      simp only [create_list_card, J.pyGet, bind, Except.bind, hi, h1, h2, h3, hv,
        Option.getD, pyOr, htr, hw, if_true, Bool.false_eq_true, if_false]
  · intro kvs c hif htf hcf h
    cases hi : jLookup kvs "items" with
    | none =>
      cases ht : jLookup kvs "tasks" with
      | none =>
        cases hc : jLookup kvs "checklist" with
        | none =>
          simp only [create_list_card, J.pyGet, bind, Except.bind, hi, ht, hc, Option.getD,
            pyOr, hnull, Bool.false_eq_true, if_false, pySlice3, List.take, List.mapM,
            List.mapM.loop, pure, Except.pure, Except.ok.injEq] at h
          cases h
          simp [bodyBlocks, jField, jLookup, pyOr, hnull, Option.getD]
        | some w =>
          have hw := hcf w hc
          simp only [create_list_card, J.pyGet, bind, Except.bind, hi, ht, hc, Option.getD,
            pyOr, hnull, hw, Bool.false_eq_true, if_false, pySlice3, List.take, List.mapM,
            List.mapM.loop, pure, Except.pure, Except.ok.injEq] at h
          cases h
          simp [bodyBlocks, jField, jLookup, pyOr, hnull, Option.getD]
      | some w =>
        have hw := htf w ht
        cases hc : jLookup kvs "checklist" with
        | none =>
          simp only [create_list_card, J.pyGet, bind, Except.bind, hi, ht, hc, Option.getD,
            pyOr, hnull, hw, Bool.false_eq_true, if_false, pySlice3, List.take, List.mapM,
            List.mapM.loop, pure, Except.pure, Except.ok.injEq] at h
          cases h
          simp [bodyBlocks, jField, jLookup, pyOr, hnull, Option.getD]
        | some w2 =>
          have hw2 := hcf w2 hc
          simp only [create_list_card, J.pyGet, bind, Except.bind, hi, ht, hc, Option.getD,
            pyOr, hnull, hw, hw2, Bool.false_eq_true, if_false, pySlice3, List.take,
            List.mapM, List.mapM.loop, pure, Except.pure, Except.ok.injEq] at h
          cases h
          simp [bodyBlocks, jField, jLookup, pyOr, hnull, Option.getD]
    | some w0 =>
      have hw0 := hif w0 hi
      cases ht : jLookup kvs "tasks" with
      | none =>
        cases hc : jLookup kvs "checklist" with
        | none =>
          simp only [create_list_card, J.pyGet, bind, Except.bind, hi, ht, hc, Option.getD,
            pyOr, hnull, hw0, Bool.false_eq_true, if_false, pySlice3, List.take, List.mapM,
            List.mapM.loop, pure, Except.pure, Except.ok.injEq] at h
          cases h
          simp [bodyBlocks, jField, jLookup, pyOr, hnull, Option.getD]
        | some w =>
          have hw := hcf w hc
          simp only [create_list_card, J.pyGet, bind, Except.bind, hi, ht, hc, Option.getD,
            pyOr, hnull, hw0, hw, Bool.false_eq_true, if_false, pySlice3, List.take,
            List.mapM, List.mapM.loop, pure, Except.pure, Except.ok.injEq] at h
          cases h
          simp [bodyBlocks, jField, jLookup, pyOr, hnull, Option.getD]
      | some w =>
        have hw := htf w ht
        cases hc : jLookup kvs "checklist" with
        | none =>
          simp only [create_list_card, J.pyGet, bind, Except.bind, hi, ht, hc, Option.getD,
            pyOr, hnull, hw0, hw, Bool.false_eq_true, if_false, pySlice3, List.take,
            List.mapM, List.mapM.loop, pure, Except.pure, Except.ok.injEq] at h
          cases h
          simp [bodyBlocks, jField, jLookup, pyOr, hnull, Option.getD]
        | some w2 =>
          have hw2 := hcf w2 hc
          simp only [create_list_card, J.pyGet, bind, Except.bind, hi, ht, hc, Option.getD,
            pyOr, hnull, hw0, hw, hw2, Bool.false_eq_true, if_false, pySlice3, List.take,
            List.mapM, List.mapM.loop, pure, Except.pure, Except.ok.injEq] at h
          cases h
          simp [bodyBlocks, jField, jLookup, pyOr, hnull, Option.getD]

/-- C3 counterexample: with items present (as the empty list) and tasks
present, the rendered body comes from tasks — not from items as the claim
states: the output is visibly the tasks rendering, while the items-only
input renders the placeholder. -/
theorem c3_counterexample_empty_items_uses_tasks :
    create_list_card (J.obj [("items", J.arr []), ("tasks", J.arr [J.str "a"])]) =
      .ok (J.obj [
        ("type", J.str "AdaptiveCard"),
        ("$schema", J.str "https://adaptivecards.io/schemas/adaptive-card.json"),
        ("version", J.str "1.4"),
        ("speak", J.str "List: Item List. a"),
        ("body", J.arr [
          J.obj [("type", J.str "TextBlock"), ("text", J.str "Item List"),
                 ("size", J.str "Medium"), ("weight", J.str "Bolder")],
          J.obj [("type", J.str "Container"), ("items", J.arr [
            J.obj [("type", J.str "TextBlock"), ("text", J.str "a"),
                   ("weight", J.str "Bolder"), ("wrap", J.bool true)]]),
                 ("separator", J.bool true)]])]) ∧
    create_list_card (J.obj [("items", J.arr [])]) =
      .ok (J.obj [
        ("type", J.str "AdaptiveCard"),
        ("$schema", J.str "https://adaptivecards.io/schemas/adaptive-card.json"),
        ("version", J.str "1.4"),
        ("speak", J.str "List: Item List. "),
        ("body", J.arr [
          J.obj [("type", J.str "TextBlock"), ("text", J.str "Item List"),
                 ("size", J.str "Medium"), ("weight", J.str "Bolder")],
          J.obj [("type", J.str "TextBlock"), ("text", J.str "(No items found)"),
                 ("isSubtle", J.bool true), ("italic", J.bool true)]])]) :=
  ⟨rfl, rfl⟩

/-- Witness for C3 at concrete inputs: a truthy items value makes tasks and
checklist irrelevant, and an empty selection renders the placeholder. -/
theorem c3_witness :
    create_list_card (J.obj [("items", J.arr [J.str "x"]), ("tasks", J.arr [J.str "y"])]) =
      create_list_card (J.obj (removeKeys [("items", J.arr [J.str "x"]),
        ("tasks", J.arr [J.str "y"])] ["tasks", "checklist"])) ∧
    bodyBlocks (J.obj [
        ("type", J.str "AdaptiveCard"),
        ("$schema", J.str "https://adaptivecards.io/schemas/adaptive-card.json"),
        ("version", J.str "1.4"),
        ("speak", J.str "List: Item List. "),
        ("body", J.arr [
          J.obj [("type", J.str "TextBlock"), ("text", J.str "Item List"),
                 ("size", J.str "Medium"), ("weight", J.str "Bolder")],
          J.obj [("type", J.str "TextBlock"), ("text", J.str "(No items found)"),
                 ("isSubtle", J.bool true), ("italic", J.bool true)]])]) = [
        J.obj [("type", J.str "TextBlock"),
               ("text", pyOr ((jLookup [(("items" : String), J.arr [])] "title").getD J.null)
                 (J.str "Item List")),
               ("size", J.str "Medium"), ("weight", J.str "Bolder")],
        J.obj [("type", J.str "TextBlock"), ("text", J.str "(No items found)"),
               ("isSubtle", J.bool true), ("italic", J.bool true)]] :=
  ⟨c3_list_first_truthy_key_and_placeholder.1 [("items", J.arr [J.str "x"]),
      ("tasks", J.arr [J.str "y"])] (J.arr [J.str "x"]) rfl rfl,
   c3_list_first_truthy_key_and_placeholder.2.2 [("items", J.arr [])] _
      (fun w hw => by cases hw; rfl)
      (fun w hw => Option.noConfusion hw)
      (fun w hw => Option.noConfusion hw)
      rfl⟩

theorem dispatch_simple_msg (msg : String) (h : msg ≠ "") :
    dispatch_card "simple" (J.obj [("message", J.str msg)]) = .ok (simpleMsgCard msg) := by
  have htr : jTruthy (J.str msg) = true := by simp [jTruthy, h]
  have e : dispatch_card "simple" (J.obj [("message", J.str msg)]) =
      create_simple_card (J.obj [("message", J.str msg)]) := rfl
  rw [e]
  simp [create_simple_card, J.pyGet, jLookup, bind, Except.bind, pure, Except.pure,
    pyOr, htr, simpleMsgCard]

theorem collectErrors_eq_filter (subKvs : List (String × J)) (fields : List J)
    (hf : ∀ f ∈ fields, jIsObj f = true ∧ jHashable (fieldIdOf f) = true) :
    collectErrors subKvs fields =
      .ok ((fields.filter (fieldRequiredAndMissing subKvs)).map
        (fun f => "- " ++ pyStr (fieldLabel f) ++ " is required.")) := by
  induction fields with
  | nil => rfl
  | cons f rest ih =>
    obtain ⟨hobj, hhash⟩ := hf f (by simp)
    have ihh := ih (fun g hg => hf g (by simp [hg]))
    cases f <;> simp [jIsObj] at hobj
    case obj fkvs =>
      simp only [fieldIdOf] at hhash
      cases hid : (jLookup fkvs "id").getD J.null
      case arr xs =>
        rw [hid] at hhash
        simp [jHashable] at hhash
      case obj okvs =>
        rw [hid] at hhash
        simp [jHashable] at hhash
      case null =>
        by_cases hcond : fieldRequiredAndMissing subKvs (J.obj fkvs) = true
        · have hcond2 := hcond
          simp only [fieldRequiredAndMissing, hid] at hcond2
          simp only [collectErrors, fieldError, J.pyGet, J.pyGetD, hid, pyDictGetKey,
            bind, Except.bind, pure, Except.pure, Option.getD_none, Option.getD_some, ihh, List.filter_cons,
            hcond, if_true, List.map_cons, hcond2, fieldLabel]
        · have hcond2 : ¬ _ = true := hcond
          simp only [fieldRequiredAndMissing, hid] at hcond2
          simp only [Bool.not_eq_true] at hcond2
          simp only [collectErrors, fieldError, J.pyGet, J.pyGetD, hid, pyDictGetKey,
            bind, Except.bind, pure, Except.pure, Option.getD_none, Option.getD_some, ihh, List.filter_cons,
            hcond, if_false, hcond2, Bool.false_eq_true, fieldLabel]
      case bool b =>
        by_cases hcond : fieldRequiredAndMissing subKvs (J.obj fkvs) = true
        · have hcond2 := hcond
          simp only [fieldRequiredAndMissing, hid] at hcond2
          simp only [collectErrors, fieldError, J.pyGet, J.pyGetD, hid, pyDictGetKey,
            bind, Except.bind, pure, Except.pure, Option.getD_none, Option.getD_some, ihh, List.filter_cons,
            hcond, if_true, List.map_cons, hcond2, fieldLabel]
        · have hcond2 : ¬ _ = true := hcond
          simp only [fieldRequiredAndMissing, hid] at hcond2
          simp only [Bool.not_eq_true] at hcond2
          simp only [collectErrors, fieldError, J.pyGet, J.pyGetD, hid, pyDictGetKey,
            bind, Except.bind, pure, Except.pure, Option.getD_none, Option.getD_some, ihh, List.filter_cons,
            hcond, if_false, hcond2, Bool.false_eq_true, fieldLabel]
      case num m e2 =>
        by_cases hcond : fieldRequiredAndMissing subKvs (J.obj fkvs) = true
        · have hcond2 := hcond
          simp only [fieldRequiredAndMissing, hid] at hcond2
          simp only [collectErrors, fieldError, J.pyGet, J.pyGetD, hid, pyDictGetKey,
            bind, Except.bind, pure, Except.pure, Option.getD_none, Option.getD_some, ihh, List.filter_cons,
            hcond, if_true, List.map_cons, hcond2, fieldLabel]
        · have hcond2 : ¬ _ = true := hcond
          simp only [fieldRequiredAndMissing, hid] at hcond2
          simp only [Bool.not_eq_true] at hcond2
          simp only [collectErrors, fieldError, J.pyGet, J.pyGetD, hid, pyDictGetKey,
            bind, Except.bind, pure, Except.pure, Option.getD_none, Option.getD_some, ihh, List.filter_cons,
            hcond, if_false, hcond2, Bool.false_eq_true, fieldLabel]
      case str s =>
        by_cases hcond : fieldRequiredAndMissing subKvs (J.obj fkvs) = true
        · have hcond2 := hcond
          simp only [fieldRequiredAndMissing, hid] at hcond2
          simp only [collectErrors, fieldError, J.pyGet, J.pyGetD, hid, pyDictGetKey,
            bind, Except.bind, pure, Except.pure, Option.getD_none, Option.getD_some, ihh, List.filter_cons,
            hcond, if_true, List.map_cons, hcond2, fieldLabel]
        · have hcond2 : ¬ _ = true := hcond
          simp only [fieldRequiredAndMissing, hid] at hcond2
          simp only [Bool.not_eq_true] at hcond2
          simp only [collectErrors, fieldError, J.pyGet, J.pyGetD, hid, pyDictGetKey,
            bind, Except.bind, pure, Except.pure, Option.getD_none, Option.getD_some, ihh, List.filter_cons,
            hcond, if_false, hcond2, Bool.false_eq_true, fieldLabel]

theorem string_append_ne_empty (a b : String) (h : a ≠ "") : a ++ b ≠ "" := by
  intro he
  apply h
  have hd := congrArg String.data he
  rw [String.data_append] at hd
  exact String.ext (List.append_eq_nil.mp hd).1

/-- C5: for a submission whose form identifier is found in the store, with a
well-formed stored field list (each field specification an object whose id
is a hashable value, as the generated forms produce), validation collects
every required field whose submitted value is absent, null or the empty
string — all of them, in field order — into one message of per-field error
lines under the Validation Failed header; with no missing field it produces
the success message naming the stored form title. -/
theorem c5_validation_aggregates_all_missing_required :
    ∀ store subKvs fid defKvs fields,
      jLookup subKvs "form_id" = some (J.str fid) → fid ≠ "" →
      jLookup store fid = some (J.obj defKvs) →
      jLookup defKvs "fields" = some (J.arr fields) →
      (∀ f ∈ fields, jIsObj f = true ∧ jHashable (fieldIdOf f) = true) →
      validate_form_submission store (J.obj subKvs) = .ok (simpleMsgCard
        (if (fields.filter (fieldRequiredAndMissing subKvs)).isEmpty then
          "Success! Your submission for \x27" ++
            pyStr ((jLookup defKvs "title").getD J.null) ++ "\x27 has been validated."
        else
          "Validation Failed:\n" ++ joinSep "\n"
            ((fields.filter (fieldRequiredAndMissing subKvs)).map
              (fun f => "- " ++ pyStr (fieldLabel f) ++ " is required.")))) := by
  intro store subKvs fid defKvs fields hfid hne hstore hfields hf
  have htr : jTruthy (J.str fid) = true := by simp [jTruthy, hne]
  have hColl := collectErrors_eq_filter subKvs fields hf
  cases hfil : fields.filter (fieldRequiredAndMissing subKvs) with
  | nil =>
    rw [hfil] at hColl
    simp only [validate_form_submission, hfid, Option.getD, htr, Bool.not_true,
      Bool.false_eq_true, if_false, pyDictGetKey, hstore, J.pyGetD, J.pyGet,
      hfields, pyIter, bind, Except.bind, hColl, List.map_nil, List.isEmpty_nil,
      Bool.not_false, if_true, hfil]
    exact dispatch_simple_msg _
      (string_append_ne_empty _ _ (string_append_ne_empty _ _ (by decide)))
  | cons a as =>
    rw [hfil] at hColl
    simp only [validate_form_submission, hfid, Option.getD, htr, Bool.not_true,
      Bool.false_eq_true, if_false, pyDictGetKey, hstore, J.pyGetD, J.pyGet,
      hfields, pyIter, bind, Except.bind, hColl, List.map_cons, List.isEmpty_cons,
      Bool.not_false, if_true, hfil]
    exact dispatch_simple_msg _ (string_append_ne_empty _ _ (by decide))

/-- Witness for C5: one submission missing both required fields (one absent,
one empty) aggregates both error lines; the hypotheses hold at the concrete
store and submission. -/
theorem c5_witness :
    validate_form_submission
        [("f1", J.obj [("title", J.str "T"), ("fields", J.arr [
          J.obj [("id", J.str "name"), ("label", J.str "Name"), ("isRequired", J.bool true)],
          J.obj [("id", J.str "age"), ("label", J.str "Age"), ("isRequired", J.bool true)]])])]
        (J.obj [("form_id", J.str "f1"), ("age", J.str "")]) =
      .ok (simpleMsgCard
        (if (([
          J.obj [("id", J.str "name"), ("label", J.str "Name"), ("isRequired", J.bool true)],
          J.obj [("id", J.str "age"), ("label", J.str "Age"), ("isRequired", J.bool true)]] :
            List J).filter (fieldRequiredAndMissing
              [("form_id", J.str "f1"), ("age", J.str "")])).isEmpty then
          "Success! Your submission for \x27" ++
            pyStr ((jLookup [("title", J.str "T"), ("fields", J.arr [
              J.obj [("id", J.str "name"), ("label", J.str "Name"),
                     ("isRequired", J.bool true)],
              J.obj [("id", J.str "age"), ("label", J.str "Age"),
                     ("isRequired", J.bool true)]])] "title").getD J.null) ++
            "\x27 has been validated."
        else
          "Validation Failed:\n" ++ joinSep "\n"
            ((([
              J.obj [("id", J.str "name"), ("label", J.str "Name"),
                     ("isRequired", J.bool true)],
              J.obj [("id", J.str "age"), ("label", J.str "Age"),
                     ("isRequired", J.bool true)]] : List J).filter
                (fieldRequiredAndMissing
                  [("form_id", J.str "f1"), ("age", J.str "")])).map
              (fun f => "- " ++ pyStr (fieldLabel f) ++ " is required.")))) :=
  c5_validation_aggregates_all_missing_required
    [("f1", J.obj [("title", J.str "T"), ("fields", J.arr [
      J.obj [("id", J.str "name"), ("label", J.str "Name"), ("isRequired", J.bool true)],
      J.obj [("id", J.str "age"), ("label", J.str "Age"), ("isRequired", J.bool true)]])])]
    [("form_id", J.str "f1"), ("age", J.str "")] "f1" _ _ rfl (by decide) rfl rfl
    (by
      intro f hf
      simp only [List.mem_cons, List.not_mem_nil, or_false] at hf
      rcases hf with rfl | rfl <;> exact ⟨rfl, rfl⟩)

/-- C6: for a submission whose form identifier is not found in the store —
absent, falsy, or a hashable value (in particular any string identifier)
that is not a stored key — validation does not raise: it returns the
specific form-session-not-found message card, and that message differs from
every field-level validation-failure message. A truthy unhashable form_id
value (a list or dict, which is not a form identifier) instead raises
TypeError in the source and in this embedding, and is excluded by the
hashability hypothesis. -/
theorem c6_unknown_form_session_distinct_message :
    (∀ store subKvs,
      (∀ v, jLookup subKvs "form_id" = some v → jTruthy v = true → jHashable v = true) →
      (∀ s, jLookup subKvs "form_id" = some (J.str s) → jLookup store s = none) →
      validate_form_submission store (J.obj subKvs) = .ok (simpleMsgCard
        ("Error: Form session \x27" ++ pyStr ((jLookup subKvs "form_id").getD J.null) ++
         "\x27 not found or expired."))) ∧
    (∀ v s, "Error: Form session \x27" ++ v ++ "\x27 not found or expired." ≠
      "Validation Failed:\n" ++ s) := by
  have hmsg : ∀ x : String,
      ("Error: Form session \x27" ++ x ++ "\x27 not found or expired.") ≠ "" :=
    fun x => string_append_ne_empty _ _ (string_append_ne_empty _ _ (by decide))
  constructor
  · intro store subKvs hh hnf
    cases hfid : jLookup subKvs "form_id" with
    | none =>
      simp only [validate_form_submission, hfid, Option.getD]
      exact dispatch_simple_msg _ (hmsg _)
    | some v =>
      cases v with
      | str s =>
        by_cases hs : s = ""
        · subst hs
          simp only [validate_form_submission, hfid, Option.getD, jTruthy,
            (show (("" : String) != "") = false from rfl), Bool.not_false, if_true]
          exact dispatch_simple_msg _ (hmsg _)
        · have hst := hnf s hfid
          have htr : jTruthy (J.str s) = true := by simp [jTruthy, hs]
          simp only [validate_form_submission, hfid, Option.getD, htr, Bool.not_true,
            Bool.false_eq_true, if_false, pyDictGetKey, hst, bind, Except.bind]
          exact dispatch_simple_msg _ (hmsg _)
      | null =>
        simp only [validate_form_submission, hfid, Option.getD]
        exact dispatch_simple_msg _ (hmsg _)
      | bool b =>
        cases b
        · simp only [validate_form_submission, hfid, Option.getD]
          exact dispatch_simple_msg _ (hmsg _)
        · simp only [validate_form_submission, hfid, Option.getD]
          exact dispatch_simple_msg _ (hmsg _)
      | num m e =>
        by_cases hm : jTruthy (J.num m e) = true
        · simp only [validate_form_submission, hfid, Option.getD, hm, Bool.not_true,
            Bool.false_eq_true, if_false, pyDictGetKey, bind, Except.bind]
          exact dispatch_simple_msg _ (hmsg _)
        · have hm2 : jTruthy (J.num m e) = false := by
            cases hmm : jTruthy (J.num m e)
            · rfl
            · exact absurd hmm hm
          simp only [validate_form_submission, hfid, Option.getD, hm2, Bool.not_false,
            if_true]
          exact dispatch_simple_msg _ (hmsg _)
      | arr xs =>
        by_cases ha : jTruthy (J.arr xs) = true
        · exact absurd (hh _ hfid ha) (by simp [jHashable])
        · have ha2 : jTruthy (J.arr xs) = false := by
            cases haa : jTruthy (J.arr xs)
            · rfl
            · exact absurd haa ha
          simp only [validate_form_submission, hfid, Option.getD, ha2, Bool.not_false,
            if_true]
          exact dispatch_simple_msg _ (hmsg _)
      | obj kvs2 =>
        by_cases ha : jTruthy (J.obj kvs2) = true
        · exact absurd (hh _ hfid ha) (by simp [jHashable])
        · have ha2 : jTruthy (J.obj kvs2) = false := by
            cases haa : jTruthy (J.obj kvs2)
            · rfl
            · exact absurd haa ha
          simp only [validate_form_submission, hfid, Option.getD, ha2, Bool.not_false,
            if_true]
          exact dispatch_simple_msg _ (hmsg _)
  · intro v s he
    have hd := congrArg String.data he
    simp only [String.data_append] at hd
    simp only [List.cons_append, List.cons.injEq] at hd
    exact absurd hd.1 (by decide)

/-- Witness for C6: an unknown string form id on the empty store yields the
not-found card, whose message differs from a sample field-failure message. -/
theorem c6_witness :
    validate_form_submission [] (J.obj [("form_id", J.str "nope")]) =
      .ok (simpleMsgCard ("Error: Form session \x27" ++
        pyStr ((jLookup [("form_id", J.str "nope")] "form_id").getD J.null) ++
        "\x27 not found or expired.")) ∧
    "Error: Form session \x27" ++ "nope" ++ "\x27 not found or expired." ≠
      "Validation Failed:\n" ++ "- Name is required." :=
  ⟨c6_unknown_form_session_distinct_message.1 [] [("form_id", J.str "nope")]
      (fun v hv _ => by cases hv; rfl) (fun _ _ => rfl),
   c6_unknown_form_session_distinct_message.2 "nope" "- Name is required."⟩

/-- C1 counterexample: on the syntactically invalid JSON string consisting
of a lone opening brace, render returns the fixed parse-error object, which
carries no originalData field, no template field and no actions (so no retry
action echoing the inputs, contrary to the claim). -/
theorem c1_counterexample_parse_error_object_has_no_retry :
    generate_adaptive_card "hero" "\x7b" =
      .ok (J.obj [("error", J.str "Invalid JSON data provided.")]) ∧
    jField (J.obj [("error", J.str "Invalid JSON data provided.")]) "actions" = none ∧
    jField (J.obj [("error", J.str "Invalid JSON data provided.")]) "template" = none ∧
    jField (J.obj [("error", J.str "Invalid JSON data provided.")]) "originalData" = none :=
  ⟨rfl, rfl, rfl, rfl⟩

/-- C1 (amended): for every syntactically invalid JSON data string the
server dispatcher does not raise but returns the fixed error object (with
no echo of the inputs); the document embedding the original template and
data with a single Retry action is built by the agent fallback
(_build_fallback_card), which is invoked when the generator call itself
fails, and its single action echoes exactly the template and serialized
data it is given. -/
theorem c1_parse_failure_error_object_and_fallback_retry :
    (∀ template data, json_loads data = none →
      generate_adaptive_card template data =
        .ok (J.obj [("error", J.str "Invalid JSON data provided.")])) ∧
    (∀ msg template dataJson,
      jField (build_fallback_card msg template dataJson) "actions" =
        some (J.arr [J.obj [("type", J.str "Action.Submit"), ("title", J.str "Retry"),
          ("data", J.obj [("action", J.str "retry"), ("template", J.str template),
                          ("originalData", J.str dataJson)])]])) := by
  constructor
  · intro template data hp
    simp [generate_adaptive_card, hp]
  · intro msg template dataJson
    rfl

/-- Witness for C1 at a concrete invalid JSON string and concrete fallback
inputs. -/
theorem c1_witness :
    generate_adaptive_card "hero" "not json" =
      .ok (J.obj [("error", J.str "Invalid JSON data provided.")]) ∧
    jField (build_fallback_card "Error: boom" "hero" "\x7bbad") "actions" =
      some (J.arr [J.obj [("type", J.str "Action.Submit"), ("title", J.str "Retry"),
        ("data", J.obj [("action", J.str "retry"), ("template", J.str "hero"),
                        ("originalData", J.str "\x7bbad")])]]) :=
  ⟨c1_parse_failure_error_object_and_fallback_retry.1 "hero" "not json" rfl,
   c1_parse_failure_error_object_and_fallback_retry.2 "Error: boom" "hero" "\x7bbad"⟩

/-- C9: in a dynamic-form render, per field specification in sequence order:
a checkbox field always yields a choice-set input with a truthy multi-select
value and the expanded layout; a choice field yields the compact layout with
the multi-select value truthy exactly when the field multi-select flag is
truthy; text, date and number fields carry the required-field error message
derived from the field label, and choice/checkbox fields carry the
select-style message derived from the label; and the submit action data
always carries the submit_dynamic_form discriminator plus the form
generated identifier exactly when one is present in the data. -/
theorem c9_dynamic_form_field_rendering_and_submit :
    (∀ fkvs ty bs, (jLookup fkvs "type").getD (J.str "text") = J.str ty →
      asciiLower ty = "checkbox" →
      renderFormField (J.obj fkvs) = .ok bs →
      ∃ lbl inp, bs = [lbl, inp] ∧
        jField inp "type" = some (J.str "Input.ChoiceSet") ∧
        jField inp "style" = some (J.str "expanded") ∧
        (∃ mv, jField inp "isMultiSelect" = some mv ∧ jTruthy mv = true) ∧
        jField inp "errorMessage" =
          some (J.str ("Please select " ++ pyStr (fieldLabel (J.obj fkvs))))) ∧
    (∀ fkvs ty bs, (jLookup fkvs "type").getD (J.str "text") = J.str ty →
      asciiLower ty = "choice" →
      renderFormField (J.obj fkvs) = .ok bs →
      ∃ lbl inp, bs = [lbl, inp] ∧
        jField inp "type" = some (J.str "Input.ChoiceSet") ∧
        jField inp "style" = some (J.str "compact") ∧
        (∃ mv, jField inp "isMultiSelect" = some mv ∧
          jTruthy mv = jTruthy ((jLookup fkvs "isMultiSelect").getD (J.bool false))) ∧
        jField inp "errorMessage" =
          some (J.str ("Please select " ++ pyStr (fieldLabel (J.obj fkvs))))) ∧
    (∀ fkvs ty bs, (jLookup fkvs "type").getD (J.str "text") = J.str ty →
      (asciiLower ty = "text" ∨ asciiLower ty = "date" ∨ asciiLower ty = "number") →
      renderFormField (J.obj fkvs) = .ok bs →
      ∃ lbl inp, bs = [lbl, inp] ∧
        jField inp "errorMessage" =
          some (J.str (pyStr (fieldLabel (J.obj fkvs)) ++ " is required"))) ∧
    (∀ kvs c, create_dynamic_form (J.obj kvs) = .ok c →
      jField c "actions" = some (J.arr [
        J.obj [("type", J.str "Action.Submit"), ("title", J.str "Submit"),
          ("data", J.obj (("action", J.str "submit_dynamic_form") ::
            (match jLookup kvs "form_id" with
             | some v => [("form_id", v)]
             | none => []))),
          ("text", J.str "submit_dynamic_form"),
          ("msteams", J.obj [("type", J.str "imBack"),
                             ("value", J.str "submit_dynamic_form")])]])) := by
  refine ⟨?_, ?_, ?_, ?_⟩
  · intro fkvs ty bs hty hlow h
    simp only [renderFormField, J.pyGet, J.pyGetD, hty, J.pyLower, hlow, bind,
      Except.bind, pure, Except.pure,
      (show (("checkbox" : String) == "text") = false from rfl),
      (show (("checkbox" : String) == "date") = false from rfl),
      (show (("checkbox" : String) == "number") = false from rfl),
      (show (("checkbox" : String) == "choice") = false from rfl),
      (show (("checkbox" : String) == "checkbox") = true from rfl),
      Bool.false_eq_true, if_false, Bool.false_or, Bool.or_true, if_true] at h
    repeat obtain ⟨_, _, h⟩ := exbind_ok h
    simp only [pure, Except.pure, Except.ok.injEq] at h
    cases h
    refine ⟨_, _, rfl, rfl, rfl, ⟨_, rfl, ?_⟩, by simp [jField, jLookup, fieldLabel]⟩
    cases hx : jTruthy ((jLookup fkvs "isMultiSelect").getD (J.bool false)) <;>
      simp [pyOr, hx, (show jTruthy (J.bool true) = true from rfl),
        (show jTruthy (J.bool false) = false from rfl)]
  · intro fkvs ty bs hty hlow h
    simp only [renderFormField, J.pyGet, J.pyGetD, hty, J.pyLower, hlow, bind,
      Except.bind, pure, Except.pure,
      (show (("choice" : String) == "text") = false from rfl),
      (show (("choice" : String) == "date") = false from rfl),
      (show (("choice" : String) == "number") = false from rfl),
      (show (("choice" : String) == "choice") = true from rfl),
      (show (("choice" : String) == "checkbox") = false from rfl),
      Bool.false_eq_true, if_false, Bool.true_or, if_true] at h
    repeat obtain ⟨_, _, h⟩ := exbind_ok h
    simp only [pure, Except.pure, Except.ok.injEq] at h
    cases h
    refine ⟨_, _, rfl, rfl, rfl, ⟨_, rfl, ?_⟩, by simp [jField, jLookup, fieldLabel]⟩
    cases hx : jTruthy ((jLookup fkvs "isMultiSelect").getD (J.bool false)) <;>
      simp [pyOr, hx, (show jTruthy (J.bool true) = true from rfl),
        (show jTruthy (J.bool false) = false from rfl)]
  · intro fkvs ty bs hty hlow h
    rcases hlow with hlow | hlow | hlow
    · simp only [renderFormField, J.pyGet, J.pyGetD, hty, J.pyLower, hlow, bind,
        Except.bind, pure, Except.pure,
        (show (("text" : String) == "text") = true from rfl), if_true,
        Except.ok.injEq] at h
      cases h
      exact ⟨_, _, rfl, by simp [jField, jLookup, fieldLabel]⟩
    · simp only [renderFormField, J.pyGet, J.pyGetD, hty, J.pyLower, hlow, bind,
        Except.bind, pure, Except.pure,
        (show (("date" : String) == "text") = false from rfl),
        (show (("date" : String) == "date") = true from rfl),
        Bool.false_eq_true, if_false, if_true, Except.ok.injEq] at h
      cases h
      exact ⟨_, _, rfl, by simp [jField, jLookup, fieldLabel]⟩
    · simp only [renderFormField, J.pyGet, J.pyGetD, hty, J.pyLower, hlow, bind,
        Except.bind, pure, Except.pure,
        (show (("number" : String) == "text") = false from rfl),
        (show (("number" : String) == "date") = false from rfl),
        (show (("number" : String) == "number") = true from rfl),
        Bool.false_eq_true, if_false, if_true, Except.ok.injEq] at h
      cases h
      exact ⟨_, _, rfl, by simp [jField, jLookup, fieldLabel]⟩
  · intro kvs c h
    simp only [create_dynamic_form, J.pyGetD, J.pyGet] at h
    repeat obtain ⟨_, _, h⟩ := exbind_ok h
    simp only [pure, Except.pure, Except.ok.injEq] at h
    cases h
    rfl

/-- Witness for C9: a concrete checkbox field renders the expanded
multi-select input, and a dynamic form with a form_id carries it in the
submit action data. -/
theorem c9_witness :
    jField (J.obj [("type", J.str "Input.ChoiceSet"), ("id", J.str "opts"),
      ("choices", J.arr []), ("isMultiSelect", J.bool true), ("style", J.str "expanded"),
      ("isRequired", J.bool false), ("errorMessage", J.str "Please select Opts")])
      "style" = some (J.str "expanded") ∧
    jField (J.obj [
      ("type", J.str "AdaptiveCard"),
      ("$schema", J.str "https://adaptivecards.io/schemas/adaptive-card.json"),
      ("version", J.str "1.4"),
      ("speak", J.str "Dynamic Form: Dynamic Form"),
      ("body", J.arr [J.obj [("type", J.str "TextBlock"), ("text", J.str "Dynamic Form"),
        ("weight", J.str "Bolder"), ("size", J.str "Large")]]),
      ("actions", J.arr [J.obj [("type", J.str "Action.Submit"), ("title", J.str "Submit"),
        ("data", J.obj [("action", J.str "submit_dynamic_form"), ("form_id", J.str "F")]),
        ("text", J.str "submit_dynamic_form"),
        ("msteams", J.obj [("type", J.str "imBack"),
                           ("value", J.str "submit_dynamic_form")])]])])
      "actions" = some (J.arr [J.obj [("type", J.str "Action.Submit"),
        ("title", J.str "Submit"),
        ("data", J.obj [("action", J.str "submit_dynamic_form"), ("form_id", J.str "F")]),
        ("text", J.str "submit_dynamic_form"),
        ("msteams", J.obj [("type", J.str "imBack"),
                           ("value", J.str "submit_dynamic_form")])]]) := by
  constructor
  · obtain ⟨lbl, inp, heq, _, h2, _, _⟩ :=
      c9_dynamic_form_field_rendering_and_submit.1
        [("id", J.str "opts"), ("type", J.str "Checkbox"), ("label", J.str "Opts")]
        "Checkbox"
        [J.obj [("type", J.str "TextBlock"), ("text", J.str "Opts"),
                ("weight", J.str "Bolder"), ("spacing", J.str "Medium")],
         J.obj [("type", J.str "Input.ChoiceSet"), ("id", J.str "opts"),
                ("choices", J.arr []), ("isMultiSelect", J.bool true),
                ("style", J.str "expanded"), ("isRequired", J.bool false),
                ("errorMessage", J.str "Please select Opts")]]
        rfl rfl rfl
    have hc := congrArg (fun l : List J => l.get? 1) heq
    simp only [List.get?] at hc
    rw [← Option.some.inj hc] at h2
    exact h2
  · exact c9_dynamic_form_field_rendering_and_submit.2.2.2 [("form_id", J.str "F")] _ rfl
